import Mathlib

/-!
# Verification of the vecbox provider-dispatch core

Shallow embedding of the vecbox embedding library's dispatch/fallback core:
the shared `EmbeddingProvider` input resolution (`readInput`), the concrete
providers (OpenAI, Gemini, Claude, Mistral, DeepSeek, LlamaCpp), the
`EmbeddingFactory` registry, the `embed` dispatcher and the `autoEmbed`
auto-selector (src/main snapshot with the llamacpp-first priority list).

External collaborators (vendor SDK calls, the native llama.cpp module, the
HTTP client, the filesystem and the process environment) are modelled as
oracles: functions from request data to `Except JsError` outcomes, collected
in an `Env` record.  JavaScript thrown errors are modelled as `JsError`
values carrying the thrown message; `async` functions returning `T` become
`Except JsError T`.  JavaScript numbers inside embedding vectors are
modelled as rationals (no claim depends on float semantics).
-/

namespace Vecbox

/-- A thrown JavaScript `Error`, identified by its message
(the source only ever throws `new Error(message)`). -/
inductive JsError where
  | mk (message : String)
deriving DecidableEq

/-- Results of modelled JS calls have decidable equality, so concrete
runs can be checked by `decide`. -/
instance exceptDecEq {ε α : Type} [DecidableEq ε] [DecidableEq α] :
    DecidableEq (Except ε α)
  | Except.ok a, Except.ok b =>
    if h : a = b then isTrue (by rw [h]) else isFalse (by simp [h])
  | Except.ok _, Except.error _ => isFalse (by simp)
  | Except.error _, Except.ok _ => isFalse (by simp)
  | Except.error e, Except.error f =>
    if h : e = f then isTrue (by rw [h]) else isFalse (by simp [h])

/-- JS truthiness of an optional string field: `undefined` and the empty
string are falsy, every other string is truthy. -/
def optTruthy : Option String → Bool
  | some s => !s.isEmpty
  | none => false

/-- Models `config.model || dflt` (JS `||` on an optional string field). -/
def orDefault (v : Option String) (dflt : String) : String :=
  if optTruthy v then v.getD "" else dflt

/-- Whether the first character list is a prefix of the second. -/
def listStarts : List Char → List Char → Bool
  | [], _ => true
  | _ :: _, [] => false
  | p :: ps, c :: cs => p == c && listStarts ps cs

/-- Whether the second character list occurs inside the first. -/
def listHas (pat : List Char) : List Char → Bool
  | [] => pat.isEmpty
  | c :: cs => listStarts pat (c :: cs) || listHas pat cs

/-- JS `String.prototype.includes`: substring test. -/
def strIncludes (s pat : String) : Bool :=
  listHas pat.data s.data

/-- JS `String.prototype.trim`: strip whitespace from both ends. -/
def jsTrim (s : String) : String :=
  String.mk
    (((s.data.dropWhile Char.isWhitespace).reverse.dropWhile
      Char.isWhitespace).reverse)

/-- Models `Except.isOk` as a Bool. -/
def exceptOk : Except JsError α → Bool
  | Except.ok _ => true
  | Except.error _ => false

/-- Models `ProviderType` (src/types/index.d.ts): the closed union of provider
identifiers, the keys of the registry. -/
inductive ProviderType where
  | openai
  | gemini
  | claude
  | mistral
  | deepseek
  | llamacpp
deriving DecidableEq

/-- The string form of a provider identifier (the literal union member). -/
def ProviderType.name : ProviderType → String
  | .openai => "openai"
  | .gemini => "gemini"
  | .claude => "claude"
  | .mistral => "mistral"
  | .deepseek => "deepseek"
  | .llamacpp => "llamacpp"

/-- Models `EmbedConfig` (src/types/index.d.ts), extended with the two optional
`LlamaCppConfig` fields (`llamaPath`, `httpEndpoint`) that
`LlamaCppProvider`'s constructor reads off the same record. -/
structure EmbedConfig where
  provider : ProviderType
  model : Option String := none
  apiKey : Option String := none
  baseUrl : Option String := none
  timeout : Option Nat := none
  maxRetries : Option Nat := none
  llamaPath : Option String := none
  httpEndpoint : Option String := none
deriving DecidableEq

/-- Models `EmbedInput` (src/types/index.d.ts): text or file reference. -/
structure EmbedInput where
  text : Option String := none
  filePath : Option String := none
deriving DecidableEq

/-- Token-usage metadata on a result. -/
structure Usage where
  promptTokens : Option Nat := none
  totalTokens : Option Nat := none
deriving DecidableEq

/-- Models `EmbedResult` (src/types/index.d.ts). -/
structure EmbedResult where
  embedding : List ℚ
  dimensions : Nat
  model : String
  provider : String
  usage : Option Usage := none
deriving DecidableEq

/-- Models `BatchEmbedResult` (src/types/index.d.ts). -/
structure BatchEmbedResult where
  embeddings : List (List ℚ)
  dimensions : Nat
  model : String
  provider : String
  usage : Option Usage := none
deriving DecidableEq

/-- The filesystem oracle: `fs.readFile(path, 'utf-8')`, which may throw. -/
abbrev FileOracle := String → Except JsError String

/-- Models `EmbeddingProvider.readInput` (src/providers/base/EmbeddingProvider.ts):
`if (input.text) return input.text; if (input.filePath) return
fs.readFile(input.filePath, 'utf-8'); throw ...`.  Note the JS truthiness
tests: an empty `text` string falls through to the `filePath` branch. -/
def readInput (fs : FileOracle) (input : EmbedInput) : Except JsError String :=
  if optTruthy input.text then Except.ok (input.text.getD "")
  else if optTruthy input.filePath then fs (input.filePath.getD "")
  else Except.error (JsError.mk "Either text or filePath must be provided")

/-! ## OpenAI provider (src/providers/openai.ts) -/

/-- One element of `response.data` from the OpenAI embeddings SDK call.
The SDK declares `embedding: number[]`; the source still guards with
`embedding.embedding || []` and `embedding.embedding?.length || 0`, both of
which are the identity on a present array (arrays, even empty, are truthy
in JS), so the field is modelled as present. -/
structure OpenAIDataItem where
  embedding : List ℚ
deriving DecidableEq

/-- Vendor-native usage block (snake_case per the OpenAI wire format). -/
structure OpenAIUsage where
  promptTokensRaw : Nat
  totalTokensRaw : Nat
deriving DecidableEq

/-- The OpenAI embeddings response shape used by the source. -/
structure OpenAIResponse where
  data : List OpenAIDataItem
  model : String
  usage : Option OpenAIUsage := none
deriving DecidableEq

/-- Oracle for the OpenAI SDK client: `client.embeddings.create` with a
single input or an array of inputs (first argument is the model name), and
the `client.models.list()` readiness probe. -/
structure OpenAIClient where
  createSingle : String → String → Except JsError OpenAIResponse
  createBatch : String → List String → Except JsError OpenAIResponse
  modelsList : Except JsError Unit

namespace OpenAIProvider

/-- Models `getModel` (inherited from the base class): `config.model || 'default'`. -/
def getModel (cfg : EmbedConfig) : String :=
  orDefault cfg.model "default"

/-- Models `OpenAIProvider.getDimensions`. -/
def getDimensions (cfg : EmbedConfig) : Nat :=
  let model := getModel cfg
  if strIncludes model "text-embedding-3-large" then 3072
  else if strIncludes model "text-embedding-3-small" then 1536
  else if strIncludes model "text-embedding-ada-002" then 1536
  else 1536

/-- Models `OpenAIProvider.embed`: resolve input, one SDK call, check
`response.data[0]`, normalize.  The catch clause only logs and rethrows,
so it does not change the result. -/
def embed (client : OpenAIClient) (fs : FileOracle) (cfg : EmbedConfig)
    (input : EmbedInput) : Except JsError EmbedResult := do
  let text ← readInput fs input
  let response ← client.createSingle (getModel cfg) text
  match response.data.head? with
  | none => Except.error (JsError.mk "No embedding returned from OpenAI API")
  | some item =>
    Except.ok
      { embedding := item.embedding
        dimensions := item.embedding.length
        model := response.model
        provider := "openai"
        usage := response.usage.map fun u =>
          { promptTokens := some u.promptTokensRaw
            totalTokens := some u.totalTokensRaw } }

/-- Models `OpenAIProvider.embedBatch`: resolve all inputs (`Promise.all`
rejects if any single resolution fails), one SDK call over the whole
array, map `item.embedding` over `response.data`. -/
def embedBatch (client : OpenAIClient) (fs : FileOracle) (cfg : EmbedConfig)
    (inputs : List EmbedInput) : Except JsError BatchEmbedResult := do
  let texts ← inputs.mapM (readInput fs)
  let response ← client.createBatch (getModel cfg) texts
  let embeddings := response.data.map (·.embedding)
  Except.ok
    { embeddings := embeddings
      dimensions := (embeddings.head?.getD []).length
      model := response.model
      provider := "openai"
      usage := response.usage.map fun u =>
        { promptTokens := some u.promptTokensRaw
          totalTokens := some u.totalTokensRaw } }

/-- Models `OpenAIProvider.isReady`: `try { await client.models.list(); return
true } catch { return false }`. -/
def isReady (client : OpenAIClient) : Except JsError Bool :=
  match (do let _ ← client.modelsList; pure true : Except JsError Bool) with
  | Except.ok b => Except.ok b
  | Except.error _ => Except.ok false

end OpenAIProvider

/-! ## Gemini provider (src/providers/gemini.ts) -/

/-- Models `result.embedding` from `model.embedContent(text)`. -/
structure GeminiEmbedding where
  values : List ℚ
deriving DecidableEq

/-- Oracle for the Google Generative AI SDK: `embedContent` on the model
obtained from `getGenerativeModel({model})` (first argument: model name). -/
structure GeminiClient where
  embedContent : String → String → Except JsError GeminiEmbedding

namespace GeminiProvider

/-- Models `GeminiProvider.getModel` (override):
`config.model || 'gemini-embedding-001'`. -/
def getModel (cfg : EmbedConfig) : String :=
  orDefault cfg.model "gemini-embedding-001"

/-- Models `GeminiProvider.getDimensions`. -/
def getDimensions (cfg : EmbedConfig) : Nat :=
  let model := getModel cfg
  if strIncludes model "gemini-embedding-001" then 768
  else if strIncludes model "text-embedding-004" then 768
  else if strIncludes model "embedding-001" then 768
  else if strIncludes model "multimodalembedding" then 768
  else 768

/-- Models `GeminiProvider.embed`. -/
def embed (client : GeminiClient) (fs : FileOracle) (cfg : EmbedConfig)
    (input : EmbedInput) : Except JsError EmbedResult := do
  let text ← readInput fs input
  let embedding ← client.embedContent (getModel cfg) text
  Except.ok
    { embedding := embedding.values
      dimensions := embedding.values.length
      model := getModel cfg
      provider := "gemini" }

/-- Models `GeminiProvider.embedBatch`: resolve all inputs, `Promise.all` of one
`embedContent` call per text, map out the value vectors. -/
def embedBatch (client : GeminiClient) (fs : FileOracle) (cfg : EmbedConfig)
    (inputs : List EmbedInput) : Except JsError BatchEmbedResult := do
  let texts ← inputs.mapM (readInput fs)
  let results ← texts.mapM (client.embedContent (getModel cfg))
  let embeddings := results.map (·.values)
  Except.ok
    { embeddings := embeddings
      dimensions := (embeddings.head?.getD []).length
      model := getModel cfg
      provider := "gemini" }

/-- Models `GeminiProvider.isReady`: `try { await model.embedContent('test');
return true } catch { return false }`. -/
def isReady (client : GeminiClient) (cfg : EmbedConfig) : Except JsError Bool :=
  match (do let _ ← client.embedContent (getModel cfg) "test"; pure true :
      Except JsError Bool) with
  | Except.ok b => Except.ok b
  | Except.error _ => Except.ok false

end GeminiProvider

/-! ## Claude provider (src/providers/claude.ts) -/

/-- Oracle for the Anthropic SDK: the `client.messages.create` probe used
by `isReady` (its response content is never inspected). -/
structure ClaudeClient where
  messagesCreate : Except JsError Unit

namespace ClaudeProvider

/-- Models `ClaudeProvider.embed`: unconditionally throws — Claude has no
embeddings API; the catch clause logs and rethrows the same error. -/
def embed (_client : ClaudeClient) (_input : EmbedInput) :
    Except JsError EmbedResult :=
  Except.error (JsError.mk
    "Claude embeddings API not yet available. Please use another provider.")

/-- Models `ClaudeProvider.embedBatch`: unconditionally throws. -/
def embedBatch (_client : ClaudeClient) (_inputs : List EmbedInput) :
    Except JsError BatchEmbedResult :=
  Except.error (JsError.mk
    "Claude embeddings API not yet available. Please use another provider.")

/-- Models `ClaudeProvider.getDimensions`: Claude has no embeddings, returns 0. -/
def getDimensions : Nat := 0

/-- Models `ClaudeProvider.isReady`: `try { await client.messages.create(...);
return true } catch { return false }`. -/
def isReady (client : ClaudeClient) : Except JsError Bool :=
  match (do let _ ← client.messagesCreate; pure true : Except JsError Bool) with
  | Except.ok b => Except.ok b
  | Except.error _ => Except.ok false

end ClaudeProvider

/-! ## Mistral provider (src/providers/mistral.ts) -/

/-- One element of `response.data` from the Mistral SDK; the SDK declares
the `embedding` field optional and the source guards it. -/
structure MistralDataItem where
  embedding : Option (List ℚ)
deriving DecidableEq

/-- Vendor-native usage block (camelCase per the Mistral SDK). -/
structure MistralUsage where
  promptTokensRaw : Nat
  totalTokensRaw : Nat
deriving DecidableEq

/-- The Mistral embeddings response shape used by the source. -/
structure MistralResponse where
  data : List MistralDataItem
  model : String
  usage : Option MistralUsage := none
deriving DecidableEq

/-- Oracle for the Mistral SDK: `client.embeddings.create({model, inputs})`
(first argument: model name, second: the `inputs` array). -/
structure MistralClient where
  create : String → List String → Except JsError MistralResponse

/-- Models `response.usage?.promptTokens && response.usage?.totalTokens ? {...} :
undefined` — the usage block is kept only when both counters are truthy
(nonzero). -/
def mistralUsageOf (response : MistralResponse) : Option Usage :=
  match response.usage with
  | some u =>
    if u.promptTokensRaw ≠ 0 ∧ u.totalTokensRaw ≠ 0 then
      some { promptTokens := some u.promptTokensRaw
             totalTokens := some u.totalTokensRaw }
    else none
  | none => none

namespace MistralProvider

/-- Models `MistralProvider.getModel` (override): `config.model || 'mistral-embed'`. -/
def getModel (cfg : EmbedConfig) : String :=
  orDefault cfg.model "mistral-embed"

/-- Models `MistralProvider.getDimensions`. -/
def getDimensions (cfg : EmbedConfig) : Nat :=
  let model := getModel cfg
  if strIncludes model "mistral-embed" then 1024
  else 1024

/-- Models `MistralProvider.embed`: one SDK call with `inputs: [text]`, check
`response.data[0]`, normalize with the `|| []` / `?.length || 0` guards
(`getD []` reproduces both, as in the OpenAI provider). -/
def embed (client : MistralClient) (fs : FileOracle) (cfg : EmbedConfig)
    (input : EmbedInput) : Except JsError EmbedResult := do
  let text ← readInput fs input
  let response ← client.create (getModel cfg) [text]
  match response.data.head? with
  | none => Except.error (JsError.mk "No embedding returned from Mistral API")
  | some item =>
    Except.ok
      { embedding := item.embedding.getD []
        dimensions := (item.embedding.getD []).length
        model := response.model
        provider := "mistral"
        usage := mistralUsageOf response }

/-- Models the per-item check in `MistralProvider.embedBatch`:
`if (!item.embedding) throw ...; return item.embedding`. -/
def itemEmbedding (item : MistralDataItem) : Except JsError (List ℚ) :=
  match item.embedding with
  | none => Except.error (JsError.mk "No embedding returned from Mistral API")
  | some e => Except.ok e

/-- Models `MistralProvider.embedBatch`: one SDK call over the whole array; each
`item.embedding` is checked (`if (!item.embedding) throw ...`). -/
def embedBatch (client : MistralClient) (fs : FileOracle) (cfg : EmbedConfig)
    (inputs : List EmbedInput) : Except JsError BatchEmbedResult := do
  let texts ← inputs.mapM (readInput fs)
  let response ← client.create (getModel cfg) texts
  let embeddings ← response.data.mapM itemEmbedding
  Except.ok
    { embeddings := embeddings
      dimensions := (embeddings.head?.getD []).length
      model := response.model
      provider := "mistral"
      usage := mistralUsageOf response }

/-- Models `MistralProvider.isReady`: `try { const response = await
client.embeddings.create({model, inputs: ['test']}); return
response.data.length > 0 } catch { return false }`. -/
def isReady (client : MistralClient) (cfg : EmbedConfig) : Except JsError Bool :=
  match (do
      let response ← client.create (getModel cfg) ["test"]
      pure (decide (0 < response.data.length)) : Except JsError Bool) with
  | Except.ok b => Except.ok b
  | Except.error _ => Except.ok false

end MistralProvider

/-! ## DeepSeek provider (src/providers/deepseek.ts) -/

/-- One element of `response.data` from the DeepSeek SDK (untyped `any` in
the source; `embedding` is used directly in the batch path and guarded
with `|| []` in the single path, and the per-item `model` with `||`). -/
structure DeepSeekDataItem where
  embedding : List ℚ
  itemModel : Option String := none
deriving DecidableEq

/-- Vendor-native usage block (snake_case wire format). -/
structure DeepSeekUsage where
  promptTokensRaw : Nat
  totalTokensRaw : Nat
deriving DecidableEq

/-- The DeepSeek embeddings response shape used by the source. -/
structure DeepSeekResponse where
  data : List DeepSeekDataItem
  model : String
  usage : Option DeepSeekUsage := none
deriving DecidableEq

/-- Oracle for the DeepSeek SDK: `client.embeddings.create` on a single
text or an array of texts (first argument: model name). -/
structure DeepSeekClient where
  createSingle : String → String → Except JsError DeepSeekResponse
  createBatch : String → List String → Except JsError DeepSeekResponse

namespace DeepSeekProvider

/-- Models `getModel` (inherited from the base class): `config.model || 'default'`. -/
def getModel (cfg : EmbedConfig) : String :=
  orDefault cfg.model "default"

/-- Models `DeepSeekProvider.getDimensions`. -/
def getDimensions (cfg : EmbedConfig) : Nat :=
  let model := getModel cfg
  if strIncludes model "deepseek-chat" then 4096
  else 4096

/-- Models `DeepSeekProvider.embed`. -/
def embed (client : DeepSeekClient) (fs : FileOracle) (cfg : EmbedConfig)
    (input : EmbedInput) : Except JsError EmbedResult := do
  let text ← readInput fs input
  let response ← client.createSingle (getModel cfg) text
  match response.data.head? with
  | none => Except.error (JsError.mk "No embedding returned from DeepSeek API")
  | some item =>
    Except.ok
      { embedding := item.embedding
        dimensions := item.embedding.length
        model := orDefault item.itemModel (getModel cfg)
        provider := "deepseek"
        usage := response.usage.map fun u =>
          { promptTokens := some u.promptTokensRaw
            totalTokens := some u.totalTokensRaw } }

/-- Models `DeepSeekProvider.embedBatch`. -/
def embedBatch (client : DeepSeekClient) (fs : FileOracle) (cfg : EmbedConfig)
    (inputs : List EmbedInput) : Except JsError BatchEmbedResult := do
  let texts ← inputs.mapM (readInput fs)
  let response ← client.createBatch (getModel cfg) texts
  let embeddings := response.data.map (·.embedding)
  Except.ok
    { embeddings := embeddings
      dimensions := (embeddings.head?.getD []).length
      model := response.model
      provider := "deepseek"
      usage := response.usage.map fun u =>
        { promptTokens := some u.promptTokensRaw
          totalTokens := some u.totalTokensRaw } }

/-- Models `DeepSeekProvider.isReady`: `try { await client.embeddings.create({
model, input: 'test'}); return true } catch { return false }`. -/
def isReady (client : DeepSeekClient) (cfg : EmbedConfig) : Except JsError Bool :=
  match (do let _ ← client.createSingle (getModel cfg) "test"; pure true :
      Except JsError Bool) with
  | Except.ok b => Except.ok b
  | Except.error _ => Except.ok false

end DeepSeekProvider

/-! ## LlamaCpp provider (src/providers/llamacpp.ts, snapshot with the
HTTP fallback and the dimension validation cited by the spec) -/

/-- The input field of the payload posted to the llama.cpp HTTP endpoint:
a single text for `embed`, an array for `embedBatch`. -/
inductive LlamaHttpInput where
  | one (text : String)
  | many (texts : List String)
deriving DecidableEq

/-- The payload posted to the llama.cpp HTTP endpoint. -/
structure LlamaHttpPayload where
  model : String
  input : LlamaHttpInput
  normalize : Bool
deriving DecidableEq

/-- The response of the llama.cpp HTTP endpoint; the source guards
`!response.embeddings`, so the field is optional. -/
structure LlamaHttpResponse where
  embeddings : Option (List (List ℚ))
deriving DecidableEq

/-- Runtime state and external oracles of a `LlamaCppProvider` instance:
the (asynchronously initialized) native-module state, the native
`getEmbedding` call, the HTTP client, and the `fs.access` probes used by
`isReady`/`getModelPath`.  The path arithmetic of `PATHS.MODEL_SEARCH_PATHS`
and `getPackageDirectory` (package-layout plumbing) is abstracted as the
oracle `modelSearchPaths`, the ordered candidate list it would produce. -/
structure LlamaEnv where
  nativeModelLoaded : Bool
  useNative : Bool
  useHttpFallback : Bool
  getEmbedding : String → Except JsError (List ℚ)
  healthCheck : String → Except JsError Bool
  post : String → LlamaHttpPayload → Except JsError LlamaHttpResponse
  accessFile : String → Except JsError Unit
  accessExec : String → Except JsError Unit
  modelSearchPaths : String → List String

namespace LlamaCppProvider

/-- Models `this.modelPath = config.model || 'nomic-embed-text-v1.5.Q4_K_M.gguf'`;
`getModel()` returns it. -/
def getModel (cfg : EmbedConfig) : String :=
  orDefault cfg.model "nomic-embed-text-v1.5.Q4_K_M.gguf"

/-- Models `this.llamaPath = config.llamaPath || PATHS.DEFAULT_LLAMA_PATH`. -/
def llamaPathOf (cfg : EmbedConfig) : String :=
  orDefault cfg.llamaPath "./llama.cpp/build/bin/llama-embedding"

/-- Models `LlamaCppProvider.getDimensions` (the `switch(true)` over
`model.includes`). -/
def getDimensions (cfg : EmbedConfig) : Nat :=
  let model := getModel cfg
  if strIncludes model "nomic-embed-text-v1.5" then 768
  else if strIncludes model "nomic-embed-text-v1" then 768
  else if strIncludes model "all-MiniLM-L6-v2" then 384
  else if strIncludes model "bge-base" then 768
  else if strIncludes model "bert-base" then 768
  else 768

/-- The `Embedding dimension mismatch: expected X, got Y` message. -/
def dimMismatchMsg (expected got : Nat) : String :=
  "Embedding dimension mismatch: expected " ++ toString expected ++
    ", got " ++ toString got

/-- Models `getModelPath`: absolute or `./`-relative model paths are returned
as-is; otherwise the first search-path candidate that `fs.access` accepts
wins, and when none does the original path is returned (each probe's
failure is swallowed by a per-candidate try). -/
def getModelPath (L : LlamaEnv) (cfg : EmbedConfig) : String :=
  let modelPath := getModel cfg
  if modelPath.startsWith "/" || modelPath.startsWith "./" then modelPath
  else
    match (L.modelSearchPaths modelPath).find?
        (fun p => exceptOk (L.accessFile p)) with
    | some p => p
    | none => modelPath

/-- The body of `LlamaCppProvider.isReady` before its catch clause:
native model loaded → true; else the HTTP health probe (a healthy
endpoint → true, an unhealthy one falls through); else the binary and
model-file `fs.access` checks. -/
def isReadyBody (L : LlamaEnv) (cfg : EmbedConfig) : Except JsError Bool :=
  if L.nativeModelLoaded then Except.ok true
  else
    let binaryCheck : Except JsError Bool := do
      let _ ← L.accessFile (llamaPathOf cfg)
      let _ ← L.accessExec (llamaPathOf cfg)
      let modelPath := getModelPath L cfg
      let _ ← L.accessFile modelPath
      Except.ok true
    if L.useHttpFallback && optTruthy cfg.httpEndpoint then
      match L.healthCheck (cfg.httpEndpoint.getD "" ++ "/health") with
      | Except.error e => Except.error e
      | Except.ok true => Except.ok true
      | Except.ok false => binaryCheck
    else binaryCheck

/-- Models `LlamaCppProvider.isReady`: the body wrapped in
`try { ... } catch { return false }`. -/
def isReady (L : LlamaEnv) (cfg : EmbedConfig) : Except JsError Bool :=
  match isReadyBody L cfg with
  | Except.ok b => Except.ok b
  | Except.error _ => Except.ok false

/-- Models `embedWithNative`: one native `getEmbedding` call, then the shape
checks — non-empty, and length equal to `getDimensions()` (the
`Array.isArray`/`Float32Array` type guard holds by typing here). -/
def embedWithNative (L : LlamaEnv) (cfg : EmbedConfig) (text : String) :
    Except JsError EmbedResult := do
  let embedding ← L.getEmbedding text
  if embedding.length = 0 then
    Except.error (JsError.mk "Native module returned empty embedding")
  else if embedding.length ≠ getDimensions cfg then
    Except.error (JsError.mk (dimMismatchMsg (getDimensions cfg) embedding.length))
  else
    Except.ok
      { embedding := embedding
        dimensions := embedding.length
        model := getModel cfg
        provider := "llamacpp" }

/-- Models `embedWithHttp`: post `{model, input, normalize: true}` to
`${httpEndpoint}/embeddings`, validate the response shape and the first
vector's dimension. -/
def embedWithHttp (L : LlamaEnv) (cfg : EmbedConfig) (text : String) :
    Except JsError EmbedResult := do
  if !optTruthy cfg.httpEndpoint then
    Except.error (JsError.mk "HTTP endpoint not configured")
  else do
    let response ← L.post (cfg.httpEndpoint.getD "" ++ "/embeddings")
      { model := getModel cfg, input := LlamaHttpInput.one text, normalize := true }
    match response.embeddings with
    | none => Except.error (JsError.mk "Invalid response from HTTP endpoint")
    | some embeddings =>
      match embeddings.head? with
      | none => Except.error (JsError.mk "Invalid embedding from HTTP endpoint")
      | some embedding =>
        if embedding.length = 0 then
          Except.error (JsError.mk "Invalid embedding from HTTP endpoint")
        else if embedding.length ≠ getDimensions cfg then
          Except.error (JsError.mk
            (dimMismatchMsg (getDimensions cfg) embedding.length))
        else
          Except.ok
            { embedding := embedding
              dimensions := embedding.length
              model := getModel cfg
              provider := "llamacpp" }

/-- Models `LlamaCppProvider.embed`: resolve input, reject text that trims to
empty, then native path, HTTP path, or failure. -/
def embed (L : LlamaEnv) (fs : FileOracle) (cfg : EmbedConfig)
    (input : EmbedInput) : Except JsError EmbedResult := do
  let text ← readInput fs input
  if (jsTrim text).isEmpty then
    Except.error (JsError.mk "Text input cannot be empty")
  else if L.useNative && L.nativeModelLoaded then
    embedWithNative L cfg text
  else if L.useHttpFallback && optTruthy cfg.httpEndpoint then
    embedWithHttp L cfg text
  else
    Except.error (JsError.mk
      "Llama.cpp provider requires either native module or HTTP endpoint. None available.")

/-- The per-item loop of `embedBatchWithNative`: resolve each input, keep
only texts whose trim is non-empty, embed each kept text natively and
validate it (non-empty and matching `getDimensions()`); any thrown error
aborts the whole loop. -/
def batchNativeLoop (L : LlamaEnv) (fs : FileOracle) (cfg : EmbedConfig) :
    List EmbedInput → Except JsError (List (List ℚ))
  | [] => Except.ok []
  | input :: rest => do
    let text ← readInput fs input
    if (jsTrim text).isEmpty then batchNativeLoop L fs cfg rest
    else do
      let embedding ← L.getEmbedding text
      if embedding.length = 0 then
        Except.error (JsError.mk "Native module returned invalid embedding")
      else if embedding.length ≠ getDimensions cfg then
        Except.error (JsError.mk
          (dimMismatchMsg (getDimensions cfg) embedding.length))
      else do
        let restEmbeddings ← batchNativeLoop L fs cfg rest
        Except.ok (embedding :: restEmbeddings)

/-- Models `embedBatchWithNative`: run the loop, fail when nothing was embedded,
else package a `BatchEmbedResult` (`dimensions` from the first vector). -/
def embedBatchWithNative (L : LlamaEnv) (fs : FileOracle) (cfg : EmbedConfig)
    (inputs : List EmbedInput) : Except JsError BatchEmbedResult := do
  let embeddings ← batchNativeLoop L fs cfg inputs
  if embeddings.length = 0 then
    Except.error (JsError.mk "No valid texts to embed")
  else
    Except.ok
      { embeddings := embeddings
        dimensions := (embeddings.head?.getD []).length
        model := getModel cfg
        provider := "llamacpp" }

/-- The text-collection loop of `embedBatchWithHttp`: resolve each input
and keep those whose trim is non-empty. -/
def collectTexts (fs : FileOracle) :
    List EmbedInput → Except JsError (List String)
  | [] => Except.ok []
  | input :: rest => do
    let text ← readInput fs input
    let restTexts ← collectTexts fs rest
    if (jsTrim text).isEmpty then Except.ok restTexts
    else Except.ok (text :: restTexts)

/-- The validation loop of `embedBatchWithHttp` over the returned vectors:
each must be non-empty and match `getDimensions()`. -/
def validateVectors (cfg : EmbedConfig) :
    List (List ℚ) → Except JsError Unit
  | [] => Except.ok ()
  | e :: rest =>
    if e.length = 0 then
      Except.error (JsError.mk "Invalid embedding from HTTP endpoint")
    else if e.length ≠ getDimensions cfg then
      Except.error (JsError.mk (dimMismatchMsg (getDimensions cfg) e.length))
    else validateVectors cfg rest

/-- Models `embedBatchWithHttp`: collect the non-whitespace texts, post them to
the (endpoint-less) `/embeddings` URL, validate the response. -/
def embedBatchWithHttp (L : LlamaEnv) (fs : FileOracle) (cfg : EmbedConfig)
    (inputs : List EmbedInput) : Except JsError BatchEmbedResult := do
  if !optTruthy cfg.httpEndpoint then
    Except.error (JsError.mk "HTTP endpoint not configured")
  else do
    let texts ← collectTexts fs inputs
    if texts.length = 0 then
      Except.error (JsError.mk "No valid texts to embed")
    else do
      let response ← L.post "/embeddings"
        { model := getModel cfg, input := LlamaHttpInput.many texts
          normalize := true }
      match response.embeddings with
      | none => Except.error (JsError.mk "Invalid response from HTTP endpoint")
      | some embeddings =>
        if embeddings.length = 0 then
          Except.error (JsError.mk "No embeddings returned from HTTP endpoint")
        else do
          let _ ← validateVectors cfg embeddings
          Except.ok
            { embeddings := embeddings
              dimensions := (embeddings.head?.getD []).length
              model := getModel cfg
              provider := "llamacpp" }

/-- Models `LlamaCppProvider.embedBatch`: native path, HTTP path, or failure. -/
def embedBatch (L : LlamaEnv) (fs : FileOracle) (cfg : EmbedConfig)
    (inputs : List EmbedInput) : Except JsError BatchEmbedResult :=
  if L.useNative && L.nativeModelLoaded then
    embedBatchWithNative L fs cfg inputs
  else if L.useHttpFallback && optTruthy cfg.httpEndpoint then
    embedBatchWithHttp L fs cfg inputs
  else
    Except.error (JsError.mk
      "Llama.cpp provider requires either native module or HTTP endpoint. None available.")

end LlamaCppProvider

/-! ## Registry / factory (src/factory/EmbeddingFactory.ts) and the
dispatch surface (src/main.ts: `embed`, `autoEmbed`) -/

/-- All external collaborators of one process: the filesystem, the
process environment, the vendor SDK clients and the llama.cpp state. -/
structure Env where
  fs : FileOracle
  envVars : String → Option String
  openai : OpenAIClient
  gemini : GeminiClient
  claude : ClaudeClient
  mistral : MistralClient
  deepseek : DeepSeekClient
  llama : LlamaEnv

/-- The uniform capability surface of a constructed provider instance
(the `EmbeddingProvider` abstract class): its methods with the backend
and config captured, as the constructed object holds them. -/
structure Provider where
  embed : EmbedInput → Except JsError EmbedResult
  embedBatch : List EmbedInput → Except JsError BatchEmbedResult
  getDimensions : Nat
  getProviderName : String
  isReady : Except JsError Bool

/-- The `OpenAIProvider` constructor (throws when `config.apiKey` is not
truthy) plus the object's method table. -/
def mkOpenAIProvider (env : Env) (cfg : EmbedConfig) : Except JsError Provider :=
  if !optTruthy cfg.apiKey then
    Except.error (JsError.mk "OpenAI API key is required")
  else
    Except.ok
      { embed := OpenAIProvider.embed env.openai env.fs cfg
        embedBatch := OpenAIProvider.embedBatch env.openai env.fs cfg
        getDimensions := OpenAIProvider.getDimensions cfg
        getProviderName := "OpenAI"
        isReady := OpenAIProvider.isReady env.openai }

/-- The `GeminiProvider` constructor (throws when `config.apiKey` is not
truthy). -/
def mkGeminiProvider (env : Env) (cfg : EmbedConfig) : Except JsError Provider :=
  if !optTruthy cfg.apiKey then
    Except.error (JsError.mk "Google API key is required")
  else
    Except.ok
      { embed := GeminiProvider.embed env.gemini env.fs cfg
        embedBatch := GeminiProvider.embedBatch env.gemini env.fs cfg
        getDimensions := GeminiProvider.getDimensions cfg
        getProviderName := "Google Gemini"
        isReady := GeminiProvider.isReady env.gemini cfg }

/-- The `ClaudeProvider` constructor (throws when `config.apiKey` is not
truthy). -/
def mkClaudeProvider (env : Env) (cfg : EmbedConfig) : Except JsError Provider :=
  if !optTruthy cfg.apiKey then
    Except.error (JsError.mk "Anthropic API key is required")
  else
    Except.ok
      { embed := ClaudeProvider.embed env.claude
        embedBatch := ClaudeProvider.embedBatch env.claude
        getDimensions := ClaudeProvider.getDimensions
        getProviderName := "Anthropic Claude"
        isReady := ClaudeProvider.isReady env.claude }

/-- The `MistralProvider` constructor (throws when `config.apiKey` is not
truthy). -/
def mkMistralProvider (env : Env) (cfg : EmbedConfig) : Except JsError Provider :=
  if !optTruthy cfg.apiKey then
    Except.error (JsError.mk "Mistral API key is required")
  else
    Except.ok
      { embed := MistralProvider.embed env.mistral env.fs cfg
        embedBatch := MistralProvider.embedBatch env.mistral env.fs cfg
        getDimensions := MistralProvider.getDimensions cfg
        getProviderName := "Mistral AI"
        isReady := MistralProvider.isReady env.mistral cfg }

/-- The `DeepSeekProvider` constructor (throws when `config.apiKey` is not
truthy). -/
def mkDeepSeekProvider (env : Env) (cfg : EmbedConfig) : Except JsError Provider :=
  if !optTruthy cfg.apiKey then
    Except.error (JsError.mk "DeepSeek API key is required")
  else
    Except.ok
      { embed := DeepSeekProvider.embed env.deepseek env.fs cfg
        embedBatch := DeepSeekProvider.embedBatch env.deepseek env.fs cfg
        getDimensions := DeepSeekProvider.getDimensions cfg
        getProviderName := "DeepSeek"
        isReady := DeepSeekProvider.isReady env.deepseek cfg }

/-- The `LlamaCppProvider` constructor: no credential requirement. -/
def mkLlamaCppProvider (env : Env) (cfg : EmbedConfig) : Provider :=
  { embed := LlamaCppProvider.embed env.llama env.fs cfg
    embedBatch := LlamaCppProvider.embedBatch env.llama env.fs cfg
    getDimensions := LlamaCppProvider.getDimensions cfg
    getProviderName := "Llama.cpp"
    isReady := LlamaCppProvider.isReady env.llama cfg }

namespace EmbeddingFactory

/-- Models `EmbeddingFactory.create`: look up `config.provider` in the provider
map and construct.  `ProviderType` is a closed union, so the
`Unsupported provider` branch of the source is unreachable and the match
is total. -/
def create (env : Env) (cfg : EmbedConfig) : Except JsError Provider :=
  match cfg.provider with
  | ProviderType.openai => mkOpenAIProvider env cfg
  | ProviderType.gemini => mkGeminiProvider env cfg
  | ProviderType.claude => mkClaudeProvider env cfg
  | ProviderType.mistral => mkMistralProvider env cfg
  | ProviderType.deepseek => mkDeepSeekProvider env cfg
  | ProviderType.llamacpp => Except.ok (mkLlamaCppProvider env cfg)

/-- Models `EmbeddingFactory.getSupportedProviders`: the map's keys in insertion
order. -/
def getSupportedProviders : List ProviderType :=
  [ProviderType.openai, ProviderType.gemini, ProviderType.claude,
   ProviderType.mistral, ProviderType.deepseek, ProviderType.llamacpp]

end EmbeddingFactory

/-- The second argument of `embed`: a single input or a batch
(`Array.isArray` branches the dispatcher). -/
inductive EmbedArg where
  | one (input : EmbedInput)
  | many (inputs : List EmbedInput)
deriving DecidableEq

/-- The dispatcher's result: a single or a batch result. -/
inductive EmbedValue where
  | one (result : EmbedResult)
  | many (result : BatchEmbedResult)
deriving DecidableEq

/-- The dispatcher body after provider construction: check `isReady`,
throw `Provider <name> is not ready` on false, else route to `embed` or
`embedBatch` of the constructed provider.  The surrounding catch clause
only logs and rethrows. -/
def embedCore (provider : Provider) (providerName : String)
    (input : EmbedArg) : Except JsError EmbedValue := do
  let ready ← provider.isReady
  if !ready then
    Except.error (JsError.mk ("Provider " ++ providerName ++ " is not ready"))
  else
    match input with
    | EmbedArg.many inputs => EmbedValue.many <$> provider.embedBatch inputs
    | EmbedArg.one single => EmbedValue.one <$> provider.embed single

/-- Models `embed` (src/main.ts): construct via the factory, then dispatch. -/
def embed (env : Env) (cfg : EmbedConfig) (input : EmbedArg) :
    Except JsError EmbedValue := do
  let provider ← EmbeddingFactory.create env cfg
  embedCore provider cfg.provider.name input

/-- One entry of `autoEmbed`'s in-source candidate array. -/
structure AutoCandidate where
  provider : ProviderType
  model : String
  apiKey : Option String
deriving DecidableEq

/-- Models `process.env.KEY || undefined`: an unset or empty environment
variable becomes `undefined`. -/
def envKey (env : Env) (key : String) : Option String :=
  match env.envVars key with
  | some s => if s.isEmpty then none else some s
  | none => none

/-- The fixed priority list of `autoEmbed`: llamacpp (local, no
credential) first, then OpenAI, Gemini and Mistral with their API keys
read from the environment. -/
def autoCandidates (env : Env) : List AutoCandidate :=
  [ { provider := ProviderType.llamacpp
      model := "nomic-embed-text-v1.5.Q4_K_M.gguf", apiKey := none },
    { provider := ProviderType.openai
      model := "text-embedding-3-small"
      apiKey := envKey env "OPENAI_API_KEY" },
    { provider := ProviderType.gemini
      model := "gemini-embedding-001"
      apiKey := envKey env "GOOGLE_GENERATIVE_AI_API_KEY" },
    { provider := ProviderType.mistral
      model := "mistral-embed"
      apiKey := envKey env "MISTRAL_API_KEY" } ]

/-- The loop guard `config.provider === 'llamacpp' || config.apiKey`:
a candidate is attempted only when it passes. -/
def tryGuard (c : AutoCandidate) : Bool :=
  decide (c.provider = ProviderType.llamacpp) || optTruthy c.apiKey

/-- The `cleanConfig` built inside the loop: provider and model always,
`apiKey` only when truthy. -/
def cleanConfig (c : AutoCandidate) : EmbedConfig :=
  { provider := c.provider
    model := some c.model
    apiKey := if optTruthy c.apiKey then c.apiKey else none }

/-- The `for (const config of providers)` loop of `autoEmbed`: skip a
candidate failing the guard, attempt a passing one through `embed`,
return its success, catch its failure and continue; after the loop throw
the aggregate `No available embedding provider found` error. -/
def autoEmbedLoop (env : Env) (input : EmbedArg) :
    List AutoCandidate → Except JsError EmbedValue
  | [] => Except.error (JsError.mk "No available embedding provider found")
  | c :: rest =>
    if tryGuard c then
      match embed env (cleanConfig c) input with
      | Except.ok r => Except.ok r
      | Except.error _ => autoEmbedLoop env input rest
    else autoEmbedLoop env input rest

/-- Models `autoEmbed` (src/main.ts): the loop over the fixed candidate list. -/
def autoEmbed (env : Env) (input : EmbedArg) : Except JsError EmbedValue :=
  autoEmbedLoop env input (autoCandidates env)

/-- Instrumentation mirroring `autoEmbedLoop` step for step: the list of
candidates on which `embed` (and hence `EmbeddingFactory.create` and the
provider's backend) is actually invoked, in invocation order.  A guarded
candidate is recorded whether its attempt succeeds or fails; a skipped
one never is; the loop stops at the first success. -/
def autoAttemptedLoop (env : Env) (input : EmbedArg) :
    List AutoCandidate → List AutoCandidate
  | [] => []
  | c :: rest =>
    if tryGuard c then
      match embed env (cleanConfig c) input with
      | Except.ok _ => [c]
      | Except.error _ => c :: autoAttemptedLoop env input rest
    else autoAttemptedLoop env input rest

/-- The candidates attempted by a full `autoEmbed` call. -/
def autoAttempted (env : Env) (input : EmbedArg) : List AutoCandidate :=
  autoAttemptedLoop env input (autoCandidates env)

/-- A candidate is "ready" for the auto-selector when it passes the
credential guard and its attempt through the dispatcher succeeds. -/
def candidateSucceeds (env : Env) (input : EmbedArg) (c : AutoCandidate) : Bool :=
  tryGuard c && exceptOk (embed env (cleanConfig c) input)

/-! ## Concrete test fixtures

Fully mocked backend layers used to instantiate the theorems below on
concrete inputs. -/

/-- A filesystem where every read fails. -/
def errFs : FileOracle :=
  fun _ => Except.error (JsError.mk "ENOENT: no such file or directory")

/-- A llama.cpp state with no native module, no HTTP fallback and no
accessible binary or model file. -/
def deadLlama : LlamaEnv :=
  { nativeModelLoaded := false
    useNative := false
    useHttpFallback := false
    getEmbedding := fun _ => Except.error (JsError.mk "native module not loaded")
    healthCheck := fun _ => Except.error (JsError.mk "connection refused")
    post := fun _ _ => Except.error (JsError.mk "connection refused")
    accessFile := fun _ => Except.error (JsError.mk "ENOENT")
    accessExec := fun _ => Except.error (JsError.mk "EACCES")
    modelSearchPaths := fun _ => [] }

/-- An OpenAI client whose every call fails. -/
def errOpenAI : OpenAIClient :=
  { createSingle := fun _ _ => Except.error (JsError.mk "fetch failed")
    createBatch := fun _ _ => Except.error (JsError.mk "fetch failed")
    modelsList := Except.error (JsError.mk "fetch failed") }

/-- A Gemini client whose every call fails. -/
def errGemini : GeminiClient :=
  { embedContent := fun _ _ => Except.error (JsError.mk "fetch failed") }

/-- A Claude client whose probe fails. -/
def errClaude : ClaudeClient :=
  { messagesCreate := Except.error (JsError.mk "fetch failed") }

/-- A Mistral client whose every call fails. -/
def errMistral : MistralClient :=
  { create := fun _ _ => Except.error (JsError.mk "fetch failed") }

/-- A DeepSeek client whose every call fails. -/
def errDeepSeek : DeepSeekClient :=
  { createSingle := fun _ _ => Except.error (JsError.mk "fetch failed")
    createBatch := fun _ _ => Except.error (JsError.mk "fetch failed")}

/-- An environment with no credentials and every backend down. -/
def deadEnv : Env :=
  { fs := errFs
    envVars := fun _ => none
    openai := errOpenAI
    gemini := errGemini
    claude := errClaude
    mistral := errMistral
    deepseek := errDeepSeek
    llama := deadLlama }

/-- An OpenAI client that answers every request with a fixed
3-dimensional vector. -/
def okOpenAI : OpenAIClient :=
  { createSingle := fun model _ =>
      Except.ok { data := [{ embedding := [1, 2, 3] }], model := model }
    createBatch := fun model texts =>
      Except.ok { data := texts.map fun _ => { embedding := [1, 2, 3] }
                  model := model }
    modelsList := Except.ok () }

/-- A single `hello` text input. -/
def helloArg : EmbedArg := EmbedArg.one { text := some "hello" }

/-- Environment for the short-circuit scenario: the local llamacpp
candidate fails, the OpenAI key is present and its backend works, the
Gemini and Mistral keys are also present (their candidates must not be
attempted). -/
def c2Env : Env :=
  { deadEnv with
    envVars := fun k =>
      if k = "OPENAI_API_KEY" then some "sk-test"
      else if k = "GOOGLE_GENERATIVE_AI_API_KEY" then some "g-key"
      else if k = "MISTRAL_API_KEY" then some "m-key"
      else none
    openai := okOpenAI }

/-- The llamacpp candidate of `autoCandidates c2Env`. -/
def c2LlamaCand : AutoCandidate :=
  { provider := ProviderType.llamacpp
    model := "nomic-embed-text-v1.5.Q4_K_M.gguf", apiKey := none }

/-- The OpenAI candidate of `autoCandidates c2Env`. -/
def c2OpenAICand : AutoCandidate :=
  { provider := ProviderType.openai
    model := "text-embedding-3-small", apiKey := some "sk-test" }

/-- The Gemini candidate of `autoCandidates c2Env`. -/
def c2GeminiCand : AutoCandidate :=
  { provider := ProviderType.gemini
    model := "gemini-embedding-001", apiKey := some "g-key" }

/-- The Mistral candidate of `autoCandidates c2Env`. -/
def c2MistralCand : AutoCandidate :=
  { provider := ProviderType.mistral
    model := "mistral-embed", apiKey := some "m-key" }

/-- The result the mocked OpenAI backend yields for the winning
candidate. -/
def c2Result : EmbedValue :=
  EmbedValue.one
    { embedding := [1, 2, 3]
      dimensions := 3
      model := "text-embedding-3-small"
      provider := "openai" }

/-- The OpenAI candidate with its credential absent. -/
def noKeyOpenAICand : AutoCandidate :=
  { provider := ProviderType.openai
    model := "text-embedding-3-small", apiKey := none }

/-- A mocked provider instance whose readiness probe resolves `false`
but whose embedding methods would succeed if invoked. -/
def notReadyProvider : Provider :=
  { embed := fun _ => Except.ok
      { embedding := [1], dimensions := 1, model := "mock", provider := "mock" }
    embedBatch := fun _ => Except.ok
      { embeddings := [[1]], dimensions := 1, model := "mock", provider := "mock" }
    getDimensions := 1
    getProviderName := "Mock"
    isReady := Except.ok false }

/-- A direct-dispatch OpenAI configuration (credential present, default
model). -/
def openaiCfg : EmbedConfig :=
  { provider := ProviderType.openai, apiKey := some "sk-test" }

/-- The dead environment with a working OpenAI backend. -/
def okEnv : Env := { deadEnv with openai := okOpenAI }

/-- A whitespace-only text input. -/
def spacesInput : EmbedInput := { text := some "   " }

/-- What the mocked OpenAI backend yields under the default model. -/
def okOpenAIDefaultResult : EmbedResult :=
  { embedding := [1, 2, 3], dimensions := 3, model := "default"
    provider := "openai" }

/-- A 768-dimensional vector (the nomic model's declared dimension). -/
def vec768 : List ℚ := List.replicate 768 1

/-- A llama.cpp state with a loaded native model answering every text
with `vec768`. -/
def nativeLlama : LlamaEnv :=
  { deadLlama with
    nativeModelLoaded := true
    useNative := true
    getEmbedding := fun _ => Except.ok vec768 }

/-- A llamacpp configuration with the default model. -/
def llamaCfg : EmbedConfig := { provider := ProviderType.llamacpp }

/-- A two-item batch whose second item is whitespace-only. -/
def c7Inputs : List EmbedInput :=
  [{ text := some "a" }, { text := some "   " }]

/-- The batch result the native path produces for `c7Inputs`: a single
vector — the whitespace item was dropped, not failed. -/
def c7Batch : BatchEmbedResult :=
  { embeddings := [vec768], dimensions := 768
    model := "nomic-embed-text-v1.5.Q4_K_M.gguf", provider := "llamacpp" }

/-- A one-item all-valid batch. -/
def oneValidBatch : List EmbedInput := [{ text := some "a" }]

/-- A direct-dispatch Claude configuration with a credential present. -/
def claudeCfg : EmbedConfig :=
  { provider := ProviderType.claude, apiKey := some "sk-ant-key" }

/-- The single result the native llama.cpp path produces from `vec768`. -/
def llamaNativeResult : EmbedResult :=
  { embedding := vec768, dimensions := 768
    model := "nomic-embed-text-v1.5.Q4_K_M.gguf", provider := "llamacpp" }

/-- A Gemini client answering every request with the 1-dimensional
vector `[1]`. -/
def okGemini : GeminiClient :=
  { embedContent := fun _ _ => Except.ok { values := [1] } }

/-- A direct-dispatch Gemini configuration (credential present, default
model). -/
def geminiCfg : EmbedConfig :=
  { provider := ProviderType.gemini, apiKey := some "g-key" }

/-- A two-item batch of plain texts. -/
def twoTextBatch : List EmbedInput :=
  [{ text := some "a" }, { text := some "b" }]

/-- The batch result `okGemini` produces on `twoTextBatch`. -/
def geminiBatchOut : BatchEmbedResult :=
  { embeddings := [[1], [1]], dimensions := 1
    model := "gemini-embedding-001", provider := "gemini" }

/-- The batch result `okOpenAI` produces on `twoTextBatch`. -/
def okOpenAIBatchOut : BatchEmbedResult :=
  { embeddings := [[1, 2, 3], [1, 2, 3]], dimensions := 3
    model := "default", provider := "openai" }

/-- An OpenAI client whose batch call answers with a ragged response:
a 3-dimensional first vector and a 2-dimensional second one. -/
def raggedOpenAI : OpenAIClient :=
  { createSingle := fun model _ =>
      Except.ok { data := [{ embedding := [1, 2, 3] }], model := model }
    createBatch := fun model _ =>
      Except.ok { data := [{ embedding := [1, 2, 3] }, { embedding := [1, 2] }]
                  model := model }
    modelsList := Except.ok () }

/-- The ragged batch result `raggedOpenAI` produces: the second inner
vector has length 2 while `dimensions` is 3. -/
def raggedBatchOut : BatchEmbedResult :=
  { embeddings := [[1, 2, 3], [1, 2]], dimensions := 3
    model := "default", provider := "openai" }

/-! ## Proofs -/

/-- Models `bind` on a successful modelled JS call steps into the continuation. -/
theorem jsBind_ok {α β : Type} (a : α) (f : α → Except JsError β) :
    (Except.ok a : Except JsError α) >>= f = f a := rfl

/-- Models `bind` on a thrown modelled JS call propagates the error. -/
theorem jsBind_err {α β : Type} (e : JsError) (f : α → Except JsError β) :
    (Except.error e : Except JsError α) >>= f = Except.error e := rfl

/-- Models `map` on a successful modelled JS call. -/
theorem jsMap_ok {α β : Type} (a : α) (f : α → β) :
    f <$> (Except.ok a : Except JsError α) = Except.ok (f a) := rfl

/-- Models `map` on a thrown modelled JS call. -/
theorem jsMap_err {α β : Type} (e : JsError) (f : α → β) :
    f <$> (Except.error e : Except JsError α) = Except.error e := rfl

/-- The auto-selector loop returns the attempt of the first candidate
that passes the guard and succeeds, and the aggregate error when there is
none. -/
theorem autoEmbedLoop_eq_find (env : Env) (input : EmbedArg) :
    ∀ cs : List AutoCandidate,
      autoEmbedLoop env input cs =
        match cs.find? (candidateSucceeds env input) with
        | some c => embed env (cleanConfig c) input
        | none => Except.error (JsError.mk "No available embedding provider found")
  | [] => rfl
  | c :: cs => by
    have ih := autoEmbedLoop_eq_find env input cs
    cases hg : tryGuard c with
    | false =>
      have hcs : ¬candidateSucceeds env input c = true := by
        simp [candidateSucceeds, hg]
      rw [List.find?_cons_of_neg _ hcs]
      simp only [autoEmbedLoop, hg]
      simpa using ih
    | true =>
      cases he : embed env (cleanConfig c) input with
      | ok r =>
        have hcs : candidateSucceeds env input c = true := by
          simp [candidateSucceeds, hg, he, exceptOk]
        rw [List.find?_cons_of_pos _ hcs]
        simp [autoEmbedLoop, hg, he]
      | error e =>
        have hcs : ¬candidateSucceeds env input c = true := by
          simp [candidateSucceeds, hg, he, exceptOk]
        rw [List.find?_cons_of_neg _ hcs]
        simp only [autoEmbedLoop, hg, he]
        simpa using ih

/-- Every candidate recorded as attempted passed the credential guard. -/
theorem autoAttemptedLoop_guarded (env : Env) (input : EmbedArg) :
    ∀ cs : List AutoCandidate, ∀ c ∈ autoAttemptedLoop env input cs,
      tryGuard c = true
  | [], c, hc => by simp [autoAttemptedLoop] at hc
  | c' :: cs, c, hc => by
    cases hg : tryGuard c' with
    | true =>
      cases he : embed env (cleanConfig c') input with
      | ok r =>
        simp only [autoAttemptedLoop, hg, he] at hc
        simp at hc
        subst hc
        exact hg
      | error e =>
        simp only [autoAttemptedLoop, hg, he] at hc
        simp at hc
        rcases hc with hc | hc
        · subst hc; exact hg
        · exact autoAttemptedLoop_guarded env input cs c hc
    | false =>
      simp only [autoAttemptedLoop, hg] at hc
      simp at hc
      exact autoAttemptedLoop_guarded env input cs c hc

/-- If every candidate of a prefix fails, the first passing-and-successful
candidate after it decides the loop: its result is returned, and the
attempt trace is exactly the guarded part of the prefix followed by the
winner — nothing after the winner. -/
theorem autoEmbedLoop_append (env : Env) (input : EmbedArg)
    (c : AutoCandidate) (cs₂ : List AutoCandidate) (r : EmbedValue)
    (hguard : tryGuard c = true)
    (hok : embed env (cleanConfig c) input = Except.ok r) :
    ∀ cs₁ : List AutoCandidate,
      (∀ c' ∈ cs₁, candidateSucceeds env input c' = false) →
      autoEmbedLoop env input (cs₁ ++ c :: cs₂) = Except.ok r ∧
        autoAttemptedLoop env input (cs₁ ++ c :: cs₂) =
          cs₁.filter tryGuard ++ [c]
  | [], _ => by
    simp [autoEmbedLoop, autoAttemptedLoop, hguard, hok]
  | c' :: cs₁, hfail => by
    have hc' : candidateSucceeds env input c' = false :=
      hfail c' (List.mem_cons_self c' cs₁)
    have ih := autoEmbedLoop_append env input c cs₂ r hguard hok cs₁
      (fun x hx => hfail x (List.mem_cons_of_mem c' hx))
    cases hg : tryGuard c' with
    | true =>
      cases he : embed env (cleanConfig c') input with
      | ok r' =>
        exfalso
        simp [candidateSucceeds, hg, he, exceptOk] at hc'
      | error e =>
        constructor
        · rw [List.cons_append]
          simp only [autoEmbedLoop, hg, he]
          simpa using ih.1
        · rw [List.cons_append]
          simp only [autoAttemptedLoop, hg, he, List.filter_cons]
          simp [ih.2]
    | false =>
      constructor
      · rw [List.cons_append]
        simp only [autoEmbedLoop, hg]
        simpa using ih.1
      · rw [List.cons_append]
        simp only [autoAttemptedLoop, hg, List.filter_cons]
        simpa using ih.2

/-- C1: `autoEmbed` evaluates a fixed priority list strictly in order —
the credential-free local llamacpp backend first, then OpenAI, Gemini and
Mistral — and, the list being a policy constant and the model a pure
function of the environment, it always returns the attempt of the first
candidate that passes the guard and succeeds, in that priority order. -/
theorem autoEmbed_fixed_priority_first_ready (env : Env) (input : EmbedArg) :
    (autoCandidates env).map (·.provider) =
      [ProviderType.llamacpp, ProviderType.openai,
       ProviderType.gemini, ProviderType.mistral] ∧
    (autoCandidates env).head? = some
      { provider := ProviderType.llamacpp
        model := "nomic-embed-text-v1.5.Q4_K_M.gguf", apiKey := none } ∧
    tryGuard { provider := ProviderType.llamacpp
               model := "nomic-embed-text-v1.5.Q4_K_M.gguf"
               apiKey := none } = true ∧
    autoEmbed env input =
      (match (autoCandidates env).find? (candidateSucceeds env input) with
       | some c => embed env (cleanConfig c) input
       | none => Except.error (JsError.mk "No available embedding provider found")) := by
  refine ⟨rfl, rfl, rfl, ?_⟩
  exact autoEmbedLoop_eq_find env input (autoCandidates env)

/-- C2: the auto-selector returns the result of the first candidate that
passes the guard and succeeds, unchanged, and the attempt trace stops at
that candidate — the guarded part of the failing prefix followed by the
winner, nothing after it, and no comparison across providers. -/
theorem autoEmbed_first_success_short_circuit (env : Env) (input : EmbedArg)
    (cs₁ cs₂ : List AutoCandidate) (c : AutoCandidate) (r : EmbedValue)
    (hlist : autoCandidates env = cs₁ ++ c :: cs₂)
    (hfail : ∀ c' ∈ cs₁, candidateSucceeds env input c' = false)
    (hguard : tryGuard c = true)
    (hok : embed env (cleanConfig c) input = Except.ok r) :
    autoEmbed env input = Except.ok r ∧
      autoAttempted env input = cs₁.filter tryGuard ++ [c] := by
  have h := autoEmbedLoop_append env input c cs₂ r hguard hok cs₁ hfail
  unfold autoEmbed autoAttempted
  rw [hlist]
  exact h

/-- C3: a remote candidate whose credential is absent from the
environment is never attempted: it does not occur in the attempt trace,
so the factory never constructs its provider and its backend is never
invoked. -/
theorem autoEmbed_credential_gating (env : Env) (input : EmbedArg)
    (c : AutoCandidate)
    (hremote : ¬c.provider = ProviderType.llamacpp)
    (hnokey : optTruthy c.apiKey = false) :
    c ∉ autoAttempted env input := by
  intro hmem
  have hguard := autoAttemptedLoop_guarded env input (autoCandidates env) c hmem
  simp [tryGuard, hremote, hnokey] at hguard

/-- C4: when every candidate of the priority list is skipped or fails,
`autoEmbed` rejects with the single aggregate error. -/
theorem autoEmbed_total_failure (env : Env) (input : EmbedArg)
    (h : ∀ c ∈ autoCandidates env, candidateSucceeds env input c = false) :
    autoEmbed env input =
      Except.error (JsError.mk "No available embedding provider found") := by
  have hfind : (autoCandidates env).find? (candidateSucceeds env input) = none :=
    List.find?_eq_none.mpr (fun c hc => by simp [h c hc])
  have := autoEmbedLoop_eq_find env input (autoCandidates env)
  rw [hfind] at this
  exact this

/-- Witness for C2: in `c2Env` the llamacpp candidate fails, the OpenAI
candidate passes the guard and succeeds, and `autoEmbed` returns its
result with the attempt trace stopping there (the ready Gemini and
Mistral candidates are never attempted). -/
theorem autoEmbed_first_success_short_circuit_witness :
    autoCandidates c2Env =
      [c2LlamaCand] ++ c2OpenAICand :: [c2GeminiCand, c2MistralCand] ∧
    (∀ c' ∈ [c2LlamaCand], candidateSucceeds c2Env helloArg c' = false) ∧
    tryGuard c2OpenAICand = true ∧
    embed c2Env (cleanConfig c2OpenAICand) helloArg = Except.ok c2Result ∧
    (autoEmbed c2Env helloArg = Except.ok c2Result ∧
      autoAttempted c2Env helloArg =
        [c2LlamaCand].filter tryGuard ++ [c2OpenAICand]) :=
  ⟨by decide, by decide, by decide, by decide,
   autoEmbed_first_success_short_circuit c2Env helloArg
     [c2LlamaCand] [c2GeminiCand, c2MistralCand] c2OpenAICand c2Result
     (by decide) (by decide) (by decide) (by decide)⟩

/-- Witness for C3: in the credential-free dead environment, the OpenAI
candidate (key absent) is never attempted. -/
theorem autoEmbed_credential_gating_witness :
    (¬noKeyOpenAICand.provider = ProviderType.llamacpp) ∧
    optTruthy noKeyOpenAICand.apiKey = false ∧
    noKeyOpenAICand ∉ autoAttempted deadEnv helloArg :=
  ⟨by decide, by decide,
   autoEmbed_credential_gating deadEnv helloArg noKeyOpenAICand
     (by decide) (by decide)⟩

/-- Witness for C4: in the dead environment every candidate is skipped
or fails, and `autoEmbed` rejects with the aggregate error. -/
theorem autoEmbed_total_failure_witness :
    (∀ c ∈ autoCandidates deadEnv,
      candidateSucceeds deadEnv helloArg c = false) ∧
    autoEmbed deadEnv helloArg =
      Except.error (JsError.mk "No available embedding provider found") :=
  ⟨by decide, autoEmbed_total_failure deadEnv helloArg (by decide)⟩

/-- C5: a constructed provider whose readiness probe resolves `false`
makes the dispatcher reject with the not-ready error naming the
provider.  The first conjunct quantifies over an arbitrary provider
record, so the result cannot depend on (and hence never invokes) its
`embed`/`embedBatch` methods, and no other provider is substituted. -/
theorem embed_not_ready_blocks (p : Provider) (name : String) (input : EmbedArg)
    (h : p.isReady = Except.ok false) :
    embedCore p name input =
      Except.error (JsError.mk ("Provider " ++ name ++ " is not ready")) ∧
    ∀ (env : Env) (cfg : EmbedConfig),
      EmbeddingFactory.create env cfg = Except.ok p →
      embed env cfg input =
        Except.error
          (JsError.mk ("Provider " ++ cfg.provider.name ++ " is not ready")) := by
  have hcore : ∀ nm, embedCore p nm input =
      Except.error (JsError.mk ("Provider " ++ nm ++ " is not ready")) := by
    intro nm
    unfold embedCore
    rw [h, jsBind_ok]
    rfl
  refine ⟨hcore name, ?_⟩
  intro env cfg hcreate
  unfold embed
  rw [hcreate, jsBind_ok]
  exact hcore cfg.provider.name

/-- Witness for C5: the mocked not-ready provider is rejected by the
dispatcher with the not-ready error even though its `embed` method would
succeed. -/
theorem embed_not_ready_blocks_witness :
    notReadyProvider.isReady = Except.ok false ∧
    embedCore notReadyProvider "openai" helloArg =
      Except.error (JsError.mk "Provider openai is not ready") :=
  ⟨rfl, (embed_not_ready_blocks notReadyProvider "openai" helloArg rfl).1⟩

/-- Models `OpenAIProvider.isReady` resolves a boolean for every client. -/
theorem openai_isReady_total (client : OpenAIClient) :
    ∃ b, OpenAIProvider.isReady client = Except.ok b := by
  unfold OpenAIProvider.isReady
  cases client.modelsList <;> exact ⟨_, rfl⟩

/-- Models `GeminiProvider.isReady` resolves a boolean for every client. -/
theorem gemini_isReady_total (client : GeminiClient) (cfg : EmbedConfig) :
    ∃ b, GeminiProvider.isReady client cfg = Except.ok b := by
  unfold GeminiProvider.isReady
  cases client.embedContent (GeminiProvider.getModel cfg) "test" <;> exact ⟨_, rfl⟩

/-- Models `ClaudeProvider.isReady` resolves a boolean for every client. -/
theorem claude_isReady_total (client : ClaudeClient) :
    ∃ b, ClaudeProvider.isReady client = Except.ok b := by
  unfold ClaudeProvider.isReady
  cases client.messagesCreate <;> exact ⟨_, rfl⟩

/-- Models `MistralProvider.isReady` resolves a boolean for every client. -/
theorem mistral_isReady_total (client : MistralClient) (cfg : EmbedConfig) :
    ∃ b, MistralProvider.isReady client cfg = Except.ok b := by
  unfold MistralProvider.isReady
  cases client.create (MistralProvider.getModel cfg) ["test"] <;> exact ⟨_, rfl⟩

/-- Models `DeepSeekProvider.isReady` resolves a boolean for every client. -/
theorem deepseek_isReady_total (client : DeepSeekClient) (cfg : EmbedConfig) :
    ∃ b, DeepSeekProvider.isReady client cfg = Except.ok b := by
  unfold DeepSeekProvider.isReady
  cases client.createSingle (DeepSeekProvider.getModel cfg) "test" <;> exact ⟨_, rfl⟩

/-- Models `LlamaCppProvider.isReady` resolves a boolean for every state. -/
theorem llama_isReady_total (L : LlamaEnv) (cfg : EmbedConfig) :
    ∃ b, LlamaCppProvider.isReady L cfg = Except.ok b := by
  unfold LlamaCppProvider.isReady
  cases LlamaCppProvider.isReadyBody L cfg <;> exact ⟨_, rfl⟩

/-- C9: for every concrete provider, every configuration and every
backend failure mode, `isReady` resolves a boolean and never throws,
and any internal failure of the readiness probe (a rejected backend
call, or for llamacpp any failure inside the probe body) is caught
inside `isReady` and reported as a resolved `false`. -/
theorem isReady_never_throws (env : Env) (cfg : EmbedConfig) :
    ((∃ b, OpenAIProvider.isReady env.openai = Except.ok b) ∧
     ∀ e, env.openai.modelsList = Except.error e →
       OpenAIProvider.isReady env.openai = Except.ok false) ∧
    ((∃ b, GeminiProvider.isReady env.gemini cfg = Except.ok b) ∧
     ∀ e, env.gemini.embedContent (GeminiProvider.getModel cfg) "test" =
         Except.error e →
       GeminiProvider.isReady env.gemini cfg = Except.ok false) ∧
    ((∃ b, ClaudeProvider.isReady env.claude = Except.ok b) ∧
     ∀ e, env.claude.messagesCreate = Except.error e →
       ClaudeProvider.isReady env.claude = Except.ok false) ∧
    ((∃ b, MistralProvider.isReady env.mistral cfg = Except.ok b) ∧
     ∀ e, env.mistral.create (MistralProvider.getModel cfg) ["test"] =
         Except.error e →
       MistralProvider.isReady env.mistral cfg = Except.ok false) ∧
    ((∃ b, DeepSeekProvider.isReady env.deepseek cfg = Except.ok b) ∧
     ∀ e, env.deepseek.createSingle (DeepSeekProvider.getModel cfg) "test" =
         Except.error e →
       DeepSeekProvider.isReady env.deepseek cfg = Except.ok false) ∧
    ((∃ b, LlamaCppProvider.isReady env.llama cfg = Except.ok b) ∧
     ∀ e, LlamaCppProvider.isReadyBody env.llama cfg = Except.error e →
       LlamaCppProvider.isReady env.llama cfg = Except.ok false) := by
  refine ⟨⟨openai_isReady_total env.openai, ?_⟩,
    ⟨gemini_isReady_total env.gemini cfg, ?_⟩,
    ⟨claude_isReady_total env.claude, ?_⟩,
    ⟨mistral_isReady_total env.mistral cfg, ?_⟩,
    ⟨deepseek_isReady_total env.deepseek cfg, ?_⟩,
    ⟨llama_isReady_total env.llama cfg, ?_⟩⟩
  · intro e he
    unfold OpenAIProvider.isReady
    rw [he]
    rfl
  · intro e he
    unfold GeminiProvider.isReady
    rw [he]
    rfl
  · intro e he
    unfold ClaudeProvider.isReady
    rw [he]
    rfl
  · intro e he
    unfold MistralProvider.isReady
    rw [he]
    rfl
  · intro e he
    unfold DeepSeekProvider.isReady
    rw [he]
    rfl
  · intro e he
    unfold LlamaCppProvider.isReady
    rw [he]

/-- Witness for C9: concrete failing probes — a rejecting OpenAI client
and a llama.cpp state whose probe body fails — resolve `false`. -/
theorem isReady_never_throws_witness :
    errOpenAI.modelsList = Except.error (JsError.mk "fetch failed") ∧
    OpenAIProvider.isReady errOpenAI = Except.ok false ∧
    LlamaCppProvider.isReadyBody deadLlama llamaCfg =
      Except.error (JsError.mk "ENOENT") ∧
    LlamaCppProvider.isReady deadLlama llamaCfg = Except.ok false :=
  ⟨rfl,
   (isReady_never_throws deadEnv llamaCfg).1.2 (JsError.mk "fetch failed") rfl,
   by decide,
   (isReady_never_throws deadEnv llamaCfg).2.2.2.2.2.2 (JsError.mk "ENOENT")
     (by decide)⟩

/-- If a provider's readiness resolves a boolean and its single-embed
method always fails on an input, the dispatcher fails on that input. -/
theorem embedCore_one_err (p : Provider) (name : String) (i : EmbedInput)
    (hb : ∃ b, p.isReady = Except.ok b)
    (h1 : exceptOk (p.embed i) = false) :
    exceptOk (embedCore p name (EmbedArg.one i)) = false := by
  obtain ⟨b, hbb⟩ := hb
  unfold embedCore
  rw [hbb, jsBind_ok]
  cases b
  · rfl
  · cases hi : p.embed i with
    | ok r => simp [hi, exceptOk] at h1
    | error e => simp [hi, jsMap_err, exceptOk]

/-- If a provider's readiness resolves a boolean and its batch method
always fails on a batch, the dispatcher fails on that batch. -/
theorem embedCore_many_err (p : Provider) (name : String) (is : List EmbedInput)
    (hb : ∃ b, p.isReady = Except.ok b)
    (h2 : exceptOk (p.embedBatch is) = false) :
    exceptOk (embedCore p name (EmbedArg.many is)) = false := by
  obtain ⟨b, hbb⟩ := hb
  unfold embedCore
  rw [hbb, jsBind_ok]
  cases b
  · rfl
  · cases hi : p.embedBatch is with
    | ok r => simp [hi, exceptOk] at h2
    | error e => simp [hi, jsMap_err, exceptOk]

/-- C10: the registry maps `claude` to a provider whose `embed` and
`embedBatch` throw unconditionally and whose `getDimensions` is 0, so a
`claude` dispatch never succeeds for any environment, any API key and
any input, although `claude` is a supported identifier. -/
theorem claude_registered_but_never_embeds :
    ProviderType.claude ∈ EmbeddingFactory.getSupportedProviders ∧
    ClaudeProvider.getDimensions = 0 ∧
    (∀ (client : ClaudeClient) (input : EmbedInput),
      exceptOk (ClaudeProvider.embed client input) = false) ∧
    (∀ (client : ClaudeClient) (inputs : List EmbedInput),
      exceptOk (ClaudeProvider.embedBatch client inputs) = false) ∧
    (∀ (env : Env) (cfg : EmbedConfig) (input : EmbedArg),
      cfg.provider = ProviderType.claude →
      exceptOk (embed env cfg input) = false) := by
  refine ⟨by decide, rfl, fun _ _ => rfl, fun _ _ => rfl, ?_⟩
  intro env cfg input hp
  unfold embed EmbeddingFactory.create
  rw [hp]
  unfold mkClaudeProvider
  cases hk : optTruthy cfg.apiKey with
  | false => rw [Bool.not_false, if_pos rfl, jsBind_err]; rfl
  | true =>
    rw [Bool.not_true, if_neg (by simp), jsBind_ok]
    cases input with
    | one i =>
      exact embedCore_one_err _ _ i (claude_isReady_total env.claude) rfl
    | many is =>
      exact embedCore_many_err _ _ is (claude_isReady_total env.claude) rfl

/-- Witness for C10: a concrete `claude` dispatch with a key present
does not succeed. -/
theorem claude_registered_but_never_embeds_witness :
    claudeCfg.provider = ProviderType.claude ∧
    exceptOk (embed deadEnv claudeCfg helloArg) = false :=
  ⟨rfl, claude_registered_but_never_embeds.2.2.2.2 deadEnv claudeCfg helloArg rfl⟩

/-- Empty-text input is rejected by `readInput` before the OpenAI
backend is reached (the empty string is falsy, so the `text` branch is
not taken and no `filePath` is present). -/
theorem openai_embed_empty_text (client : OpenAIClient) (fs : FileOracle)
    (cfg : EmbedConfig) :
    OpenAIProvider.embed client fs cfg { text := some "" } =
      Except.error (JsError.mk "Either text or filePath must be provided") := rfl

/-- Empty-text input is rejected before the Gemini backend is reached. -/
theorem gemini_embed_empty_text (client : GeminiClient) (fs : FileOracle)
    (cfg : EmbedConfig) :
    GeminiProvider.embed client fs cfg { text := some "" } =
      Except.error (JsError.mk "Either text or filePath must be provided") := rfl

/-- Empty-text input is rejected before the Mistral backend is reached. -/
theorem mistral_embed_empty_text (client : MistralClient) (fs : FileOracle)
    (cfg : EmbedConfig) :
    MistralProvider.embed client fs cfg { text := some "" } =
      Except.error (JsError.mk "Either text or filePath must be provided") := rfl

/-- Empty-text input is rejected before the DeepSeek backend is reached. -/
theorem deepseek_embed_empty_text (client : DeepSeekClient) (fs : FileOracle)
    (cfg : EmbedConfig) :
    DeepSeekProvider.embed client fs cfg { text := some "" } =
      Except.error (JsError.mk "Either text or filePath must be provided") := rfl

/-- Empty-text input is rejected before any llama.cpp path is reached. -/
theorem llama_embed_empty_text (L : LlamaEnv) (fs : FileOracle)
    (cfg : EmbedConfig) :
    LlamaCppProvider.embed L fs cfg { text := some "" } =
      Except.error (JsError.mk "Either text or filePath must be provided") := rfl

/-- C6 counterexample: with a mocked working backend, the OpenAI
provider embeds whitespace-only text and returns the backend's vector —
`embed(config, {text: "   "})` does not fail with an input error for
every provider. -/
theorem embed_whitespace_not_rejected_counterexample :
    embed okEnv openaiCfg (EmbedArg.one spacesInput) =
      Except.ok (EmbedValue.one okOpenAIDefaultResult) := by decide

/-- C6 (amended): an input that resolves to the empty string is rejected
by every provider (via `readInput`, never reaching a backend and never
yielding a vector); whitespace-only text is rejected only by the
llamacpp provider (`Text input cannot be empty`) — the API-backed
providers forward it to their backend unchanged. -/
theorem embed_empty_input_fail_closed :
    (∀ (env : Env) (cfg : EmbedConfig),
      exceptOk (embed env cfg (EmbedArg.one { text := some "" })) = false) ∧
    (∀ (L : LlamaEnv) (fs : FileOracle) (cfg : EmbedConfig),
      LlamaCppProvider.embed L fs cfg { text := some "   " } =
        Except.error (JsError.mk "Text input cannot be empty")) := by
  constructor
  · intro env cfg
    unfold embed EmbeddingFactory.create
    cases hp : cfg.provider with
    | openai =>
      unfold mkOpenAIProvider
      cases hk : optTruthy cfg.apiKey with
      | false => rw [Bool.not_false, if_pos rfl, jsBind_err]; rfl
      | true =>
        rw [Bool.not_true, if_neg (by simp), jsBind_ok]
        exact embedCore_one_err _ _ _ (openai_isReady_total env.openai)
          rfl
    | gemini =>
      unfold mkGeminiProvider
      cases hk : optTruthy cfg.apiKey with
      | false => rw [Bool.not_false, if_pos rfl, jsBind_err]; rfl
      | true =>
        rw [Bool.not_true, if_neg (by simp), jsBind_ok]
        exact embedCore_one_err _ _ _ (gemini_isReady_total env.gemini cfg)
          rfl
    | claude =>
      unfold mkClaudeProvider
      cases hk : optTruthy cfg.apiKey with
      | false => rw [Bool.not_false, if_pos rfl, jsBind_err]; rfl
      | true =>
        rw [Bool.not_true, if_neg (by simp), jsBind_ok]
        exact embedCore_one_err _ _ _ (claude_isReady_total env.claude) rfl
    | mistral =>
      unfold mkMistralProvider
      cases hk : optTruthy cfg.apiKey with
      | false => rw [Bool.not_false, if_pos rfl, jsBind_err]; rfl
      | true =>
        rw [Bool.not_true, if_neg (by simp), jsBind_ok]
        exact embedCore_one_err _ _ _ (mistral_isReady_total env.mistral cfg)
          rfl
    | deepseek =>
      unfold mkDeepSeekProvider
      cases hk : optTruthy cfg.apiKey with
      | false => rw [Bool.not_false, if_pos rfl, jsBind_err]; rfl
      | true =>
        rw [Bool.not_true, if_neg (by simp), jsBind_ok]
        exact embedCore_one_err _ _ _ (deepseek_isReady_total env.deepseek cfg)
          rfl
    | llamacpp =>
      rw [jsBind_ok]
      exact embedCore_one_err _ _ _ (llama_isReady_total env.llama cfg)
        rfl
  · intro L fs cfg
    rfl

/-- On a batch whose every input resolves to text with non-empty trim,
the native per-item loop either throws or yields exactly one vector per
input, in order, each the native embedding of that input's text. -/
theorem batchNativeLoop_all_valid (L : LlamaEnv) (fs : FileOracle)
    (cfg : EmbedConfig) :
    ∀ inputs : List EmbedInput,
      (∀ i ∈ inputs, ∃ t, readInput fs i = Except.ok t ∧
        (jsTrim t).isEmpty = false) →
      (∃ e, LlamaCppProvider.batchNativeLoop L fs cfg inputs = Except.error e) ∨
      (∃ vs, LlamaCppProvider.batchNativeLoop L fs cfg inputs = Except.ok vs ∧
        List.Forall₂ (fun i v => ∃ t, readInput fs i = Except.ok t ∧
          L.getEmbedding t = Except.ok v) inputs vs)
  | [], _ => Or.inr ⟨[], rfl, List.Forall₂.nil⟩
  | i :: rest, h => by
    obtain ⟨t, hrt, htrim⟩ := h i (List.mem_cons_self i rest)
    have ih := batchNativeLoop_all_valid L fs cfg rest
      (fun x hx => h x (List.mem_cons_of_mem i hx))
    unfold LlamaCppProvider.batchNativeLoop
    rw [hrt, jsBind_ok, htrim]
    rw [if_neg (by simp)]
    cases hge : L.getEmbedding t with
    | error e =>
      rw [jsBind_err]
      exact Or.inl ⟨e, rfl⟩
    | ok emb =>
      rw [jsBind_ok]
      by_cases h0 : emb.length = 0
      · rw [if_pos h0]
        exact Or.inl ⟨_, rfl⟩
      · rw [if_neg h0]
        by_cases hd : emb.length ≠ LlamaCppProvider.getDimensions cfg
        · rw [if_pos hd]
          exact Or.inl ⟨_, rfl⟩
        · rw [if_neg hd]
          rcases ih with ⟨e, he⟩ | ⟨vs, hvs, hfa⟩
          · rw [he, jsBind_err]
            exact Or.inl ⟨e, rfl⟩
          · rw [hvs, jsBind_ok]
            exact Or.inr ⟨emb :: vs, rfl,
              List.Forall₂.cons ⟨t, hrt, hge⟩ hfa⟩

set_option maxRecDepth 8192 in
/-- C7 counterexample: on a two-item batch whose second item is
whitespace-only, the llamacpp native batch path neither fails the whole
batch nor returns two outputs — it succeeds with a single vector, so the
output length does not match the input length and `output[i]` no longer
corresponds to `input[i]`. -/
theorem llama_batch_whitespace_dropped_counterexample :
    c7Inputs.length = 2 ∧
    LlamaCppProvider.embedBatch nativeLlama errFs llamaCfg c7Inputs =
      Except.ok c7Batch ∧
    c7Batch.embeddings.length = 1 := by
  refine ⟨rfl, ?_, rfl⟩
  decide

/-- On a batch whose every input resolves to text with non-empty trim,
the llamacpp native batch method either fails whole or yields exactly
one output per input, in order. -/
theorem embedBatchWithNative_all_valid (L : LlamaEnv) (fs : FileOracle)
    (cfg : EmbedConfig) (inputs : List EmbedInput)
    (h : ∀ i ∈ inputs, ∃ t, readInput fs i = Except.ok t ∧
      (jsTrim t).isEmpty = false) :
    (∃ e, LlamaCppProvider.embedBatchWithNative L fs cfg inputs =
      Except.error e) ∨
    (∃ out, LlamaCppProvider.embedBatchWithNative L fs cfg inputs =
        Except.ok out ∧
      out.embeddings.length = inputs.length ∧
      List.Forall₂ (fun i v => ∃ t, readInput fs i = Except.ok t ∧
        L.getEmbedding t = Except.ok v) inputs out.embeddings) := by
  rcases batchNativeLoop_all_valid L fs cfg inputs h with ⟨e, he⟩ | ⟨vs, hvs, hfa⟩
  · refine Or.inl ⟨e, ?_⟩
    unfold LlamaCppProvider.embedBatchWithNative
    rw [he, jsBind_err]
  · unfold LlamaCppProvider.embedBatchWithNative
    rw [hvs, jsBind_ok]
    by_cases h0 : vs.length = 0
    · rw [if_pos h0]
      exact Or.inl ⟨_, rfl⟩
    · rw [if_neg h0]
      exact Or.inr ⟨_, rfl, hfa.length_eq.symm, hfa⟩

/-- A successful `mapM` of a fallible step relates inputs and outputs
pointwise: every step succeeded, in order. -/
theorem mapM_ok_forall2 {α β : Type} (f : α → Except JsError β) :
    ∀ (xs : List α) (ys : List β), xs.mapM f = Except.ok ys →
      List.Forall₂ (fun x y => f x = Except.ok y) xs ys
  | [], ys, h => by
    rw [List.mapM_nil] at h
    simp only [pure, Except.pure, Except.ok.injEq] at h
    subst h
    exact List.Forall₂.nil
  | x :: xs, ys, h => by
    rw [List.mapM_cons] at h
    cases hf : f x with
    | error e => rw [hf, jsBind_err] at h; exact absurd h (by simp)
    | ok y =>
      rw [hf, jsBind_ok] at h
      cases hm : xs.mapM f with
      | error e => rw [hm, jsBind_err] at h; exact absurd h (by simp)
      | ok ys' =>
        rw [hm, jsBind_ok] at h
        simp only [pure, Except.pure, Except.ok.injEq] at h
        subst h
        exact List.Forall₂.cons hf (mapM_ok_forall2 f xs ys' hm)

/-- Pointwise composition of two `Forall₂` relations through a shared
middle list. -/
theorem forall2_trans {α β γ : Type} {R : α → β → Prop} {S : β → γ → Prop}
    {T : α → γ → Prop} (hcomp : ∀ a b c, R a b → S b c → T a c) :
    ∀ {xs : List α} {ys : List β} {zs : List γ},
      List.Forall₂ R xs ys → List.Forall₂ S ys zs → List.Forall₂ T xs zs := by
  intro xs ys zs h1
  induction h1 generalizing zs with
  | nil =>
    intro h2
    cases h2
    exact List.Forall₂.nil
  | cons hab htail ih =>
    intro h2
    cases h2 with
    | cons hbc h2tail => exact List.Forall₂.cons (hcomp _ _ _ hab hbc) (ih h2tail)

/-- On a batch whose every input resolves to text with non-empty trim,
the HTTP batch path's text collection succeeds with exactly the resolved
texts, one per input, in order (nothing dropped). -/
theorem collectTexts_all_valid (fs : FileOracle) :
    ∀ inputs : List EmbedInput,
      (∀ i ∈ inputs, ∃ t, readInput fs i = Except.ok t ∧
        (jsTrim t).isEmpty = false) →
      ∃ texts, LlamaCppProvider.collectTexts fs inputs = Except.ok texts ∧
        List.Forall₂ (fun i t => readInput fs i = Except.ok t) inputs texts
  | [], _ => ⟨[], rfl, List.Forall₂.nil⟩
  | i :: rest, h => by
    obtain ⟨t, hrt, htrim⟩ := h i (List.mem_cons_self i rest)
    obtain ⟨texts, hts, hfa⟩ := collectTexts_all_valid fs rest
      (fun x hx => h x (List.mem_cons_of_mem i hx))
    refine ⟨t :: texts, ?_, List.Forall₂.cons hrt hfa⟩
    unfold LlamaCppProvider.collectTexts
    rw [hrt, jsBind_ok, hts, jsBind_ok, htrim]
    rw [if_neg (by simp)]

/-- C7 (amended): no provider returns a partial batch success — any item
failure fails the whole call — and order is preserved in everything the
code controls: Gemini's N independent sub-calls yield exactly N outputs
with `output[i]` from `input[i]`; OpenAI, Mistral and DeepSeek resolve
all N texts (any resolution failure fails the batch), issue one vendor
call with those N texts in input order and pass the vendor's sequence
through unchanged (so the output has length N exactly when the vendor
answers one embedding per input); the llamacpp native path, on a batch
whose items all resolve to non-whitespace text, fails whole or yields
exactly N outputs in order, and the llamacpp HTTP path posts exactly
those N resolved texts in order.  Exception forced by the
counterexample: the two llamacpp batch paths silently drop an input that
resolves to whitespace-only text instead of failing it, so with such
items their output (or posted request) covers fewer than N items. -/
theorem embedBatch_order_preservation :
    (∀ (client : GeminiClient) (fs : FileOracle) (cfg : EmbedConfig)
        (inputs : List EmbedInput) (out : BatchEmbedResult),
      GeminiProvider.embedBatch client fs cfg inputs = Except.ok out →
      out.embeddings.length = inputs.length ∧
      List.Forall₂ (fun i v => ∃ t, readInput fs i = Except.ok t ∧
        client.embedContent (GeminiProvider.getModel cfg) t =
          Except.ok { values := v }) inputs out.embeddings) ∧
    (∀ (client : OpenAIClient) (fs : FileOracle) (cfg : EmbedConfig)
        (inputs : List EmbedInput) (out : BatchEmbedResult),
      OpenAIProvider.embedBatch client fs cfg inputs = Except.ok out →
      ∃ texts resp,
        List.Forall₂ (fun i t => readInput fs i = Except.ok t) inputs texts ∧
        texts.length = inputs.length ∧
        client.createBatch (OpenAIProvider.getModel cfg) texts =
          Except.ok resp ∧
        out.embeddings = resp.data.map (·.embedding)) ∧
    (∀ (client : MistralClient) (fs : FileOracle) (cfg : EmbedConfig)
        (inputs : List EmbedInput) (out : BatchEmbedResult),
      MistralProvider.embedBatch client fs cfg inputs = Except.ok out →
      ∃ texts resp,
        List.Forall₂ (fun i t => readInput fs i = Except.ok t) inputs texts ∧
        texts.length = inputs.length ∧
        client.create (MistralProvider.getModel cfg) texts = Except.ok resp ∧
        List.Forall₂ (fun item v => item.embedding = some v)
          resp.data out.embeddings) ∧
    (∀ (client : DeepSeekClient) (fs : FileOracle) (cfg : EmbedConfig)
        (inputs : List EmbedInput) (out : BatchEmbedResult),
      DeepSeekProvider.embedBatch client fs cfg inputs = Except.ok out →
      ∃ texts resp,
        List.Forall₂ (fun i t => readInput fs i = Except.ok t) inputs texts ∧
        texts.length = inputs.length ∧
        client.createBatch (DeepSeekProvider.getModel cfg) texts =
          Except.ok resp ∧
        out.embeddings = resp.data.map (·.embedding)) ∧
    (∀ (L : LlamaEnv) (fs : FileOracle) (cfg : EmbedConfig)
        (inputs : List EmbedInput),
      (∀ i ∈ inputs, ∃ t, readInput fs i = Except.ok t ∧
        (jsTrim t).isEmpty = false) →
      (∃ e, LlamaCppProvider.embedBatchWithNative L fs cfg inputs =
        Except.error e) ∨
      (∃ out, LlamaCppProvider.embedBatchWithNative L fs cfg inputs =
          Except.ok out ∧
        out.embeddings.length = inputs.length ∧
        List.Forall₂ (fun i v => ∃ t, readInput fs i = Except.ok t ∧
          L.getEmbedding t = Except.ok v) inputs out.embeddings)) ∧
    (∀ (fs : FileOracle) (inputs : List EmbedInput),
      (∀ i ∈ inputs, ∃ t, readInput fs i = Except.ok t ∧
        (jsTrim t).isEmpty = false) →
      ∃ texts, LlamaCppProvider.collectTexts fs inputs = Except.ok texts ∧
        texts.length = inputs.length ∧
        List.Forall₂ (fun i t => readInput fs i = Except.ok t) inputs texts) := by
  refine ⟨?_, ?_, ?_, ?_, ?_, ?_⟩
  · intro client fs cfg inputs out h
    unfold GeminiProvider.embedBatch at h
    cases ht : inputs.mapM (readInput fs) with
    | error e => rw [ht, jsBind_err] at h; exact absurd h (by simp)
    | ok texts =>
      rw [ht, jsBind_ok] at h
      cases hr : texts.mapM (client.embedContent (GeminiProvider.getModel cfg)) with
      | error e => rw [hr, jsBind_err] at h; exact absurd h (by simp)
      | ok results =>
        rw [hr, jsBind_ok] at h
        simp only [Except.ok.injEq] at h
        subst h
        have h1 := mapM_ok_forall2 (readInput fs) inputs texts ht
        have h2 := mapM_ok_forall2
          (client.embedContent (GeminiProvider.getModel cfg)) texts results hr
        have hcomp : List.Forall₂ (fun i res => ∃ t,
            readInput fs i = Except.ok t ∧
            client.embedContent (GeminiProvider.getModel cfg) t =
              Except.ok res) inputs results :=
          forall2_trans (fun i t res hit htres => ⟨t, hit, htres⟩) h1 h2
        constructor
        · rw [List.length_map, ← h2.length_eq, ← h1.length_eq]
        · exact List.forall₂_map_right_iff.mpr
            (hcomp.imp fun i res ⟨t, hit, htres⟩ => ⟨t, hit, htres⟩)
  · intro client fs cfg inputs out h
    unfold OpenAIProvider.embedBatch at h
    cases ht : inputs.mapM (readInput fs) with
    | error e => rw [ht, jsBind_err] at h; exact absurd h (by simp)
    | ok texts =>
      rw [ht, jsBind_ok] at h
      cases hc : client.createBatch (OpenAIProvider.getModel cfg) texts with
      | error e => rw [hc, jsBind_err] at h; exact absurd h (by simp)
      | ok resp =>
        rw [hc, jsBind_ok] at h
        simp only [Except.ok.injEq] at h
        subst h
        have h1 := mapM_ok_forall2 (readInput fs) inputs texts ht
        exact ⟨texts, resp, h1, h1.length_eq.symm, hc, rfl⟩
  · intro client fs cfg inputs out h
    unfold MistralProvider.embedBatch at h
    cases ht : inputs.mapM (readInput fs) with
    | error e => rw [ht, jsBind_err] at h; exact absurd h (by simp)
    | ok texts =>
      rw [ht, jsBind_ok] at h
      cases hc : client.create (MistralProvider.getModel cfg) texts with
      | error e => rw [hc, jsBind_err] at h; exact absurd h (by simp)
      | ok resp =>
        rw [hc, jsBind_ok] at h
        cases hm : resp.data.mapM MistralProvider.itemEmbedding with
        | error e => rw [hm, jsBind_err] at h; exact absurd h (by simp)
        | ok embeddings =>
          rw [hm, jsBind_ok] at h
          simp only [Except.ok.injEq] at h
          subst h
          have h1 := mapM_ok_forall2 (readInput fs) inputs texts ht
          have h2 := mapM_ok_forall2 MistralProvider.itemEmbedding
            resp.data embeddings hm
          refine ⟨texts, resp, h1, h1.length_eq.symm, hc, ?_⟩
          refine h2.imp fun item v hiv => ?_
          unfold MistralProvider.itemEmbedding at hiv
          cases hie : item.embedding with
          | none => rw [hie] at hiv; exact absurd hiv (by simp)
          | some e =>
            rw [hie] at hiv
            simp only [Except.ok.injEq] at hiv
            subst hiv
            rfl
  · intro client fs cfg inputs out h
    unfold DeepSeekProvider.embedBatch at h
    cases ht : inputs.mapM (readInput fs) with
    | error e => rw [ht, jsBind_err] at h; exact absurd h (by simp)
    | ok texts =>
      rw [ht, jsBind_ok] at h
      cases hc : client.createBatch (DeepSeekProvider.getModel cfg) texts with
      | error e => rw [hc, jsBind_err] at h; exact absurd h (by simp)
      | ok resp =>
        rw [hc, jsBind_ok] at h
        simp only [Except.ok.injEq] at h
        subst h
        have h1 := mapM_ok_forall2 (readInput fs) inputs texts ht
        exact ⟨texts, resp, h1, h1.length_eq.symm, hc, rfl⟩
  · exact embedBatchWithNative_all_valid
  · intro fs inputs h
    obtain ⟨texts, hts, hfa⟩ := collectTexts_all_valid fs inputs h
    exact ⟨texts, hts, hfa.length_eq.symm, hfa⟩

/-- Witness for the amended C7: a concrete Gemini two-item batch (N
sub-calls, order preserved) and a concrete all-valid llamacpp native
batch. -/
theorem embedBatch_order_preservation_witness :
    GeminiProvider.embedBatch okGemini errFs geminiCfg twoTextBatch =
      Except.ok geminiBatchOut ∧
    (geminiBatchOut.embeddings.length = twoTextBatch.length ∧
      List.Forall₂ (fun i v => ∃ t, readInput errFs i = Except.ok t ∧
        okGemini.embedContent (GeminiProvider.getModel geminiCfg) t =
          Except.ok { values := v }) twoTextBatch geminiBatchOut.embeddings) ∧
    (∀ i ∈ oneValidBatch, ∃ t, readInput errFs i = Except.ok t ∧
      (jsTrim t).isEmpty = false) ∧
    ((∃ e, LlamaCppProvider.embedBatchWithNative nativeLlama errFs llamaCfg
        oneValidBatch = Except.error e) ∨
    (∃ out, LlamaCppProvider.embedBatchWithNative nativeLlama errFs llamaCfg
        oneValidBatch = Except.ok out ∧
      out.embeddings.length = oneValidBatch.length ∧
      List.Forall₂ (fun i v => ∃ t, readInput errFs i = Except.ok t ∧
        nativeLlama.getEmbedding t = Except.ok v) oneValidBatch
        out.embeddings)) := by
  have hg : GeminiProvider.embedBatch okGemini errFs geminiCfg twoTextBatch =
      Except.ok geminiBatchOut := by decide
  have hw : ∀ i ∈ oneValidBatch, ∃ t, readInput errFs i = Except.ok t ∧
      (jsTrim t).isEmpty = false := by
    intro i hi
    simp only [oneValidBatch, List.mem_singleton] at hi
    subst hi
    exact ⟨"a", rfl, rfl⟩
  exact ⟨hg,
    embedBatch_order_preservation.1 okGemini errFs geminiCfg twoTextBatch
      geminiBatchOut hg,
    hw,
    embedBatch_order_preservation.2.2.2.2.1 nativeLlama errFs llamaCfg
      oneValidBatch hw⟩

/-- Every vector produced by the native batch loop has been validated
against the declared dimension. -/
theorem batchNativeLoop_validated (L : LlamaEnv) (fs : FileOracle)
    (cfg : EmbedConfig) :
    ∀ (inputs : List EmbedInput) (vs : List (List ℚ)),
      LlamaCppProvider.batchNativeLoop L fs cfg inputs = Except.ok vs →
      ∀ v ∈ vs, v.length = LlamaCppProvider.getDimensions cfg
  | [], vs, h => by
    simp only [LlamaCppProvider.batchNativeLoop, Except.ok.injEq] at h
    subst h
    intro v hv
    simp at hv
  | i :: rest, vs, h => by
    unfold LlamaCppProvider.batchNativeLoop at h
    cases hr : readInput fs i with
    | error e => rw [hr, jsBind_err] at h; exact absurd h (by simp)
    | ok t =>
      rw [hr, jsBind_ok] at h
      by_cases htrim : (jsTrim t).isEmpty = true
      · rw [if_pos htrim] at h
        exact batchNativeLoop_validated L fs cfg rest vs h
      · rw [if_neg htrim] at h
        cases hg : L.getEmbedding t with
        | error e => rw [hg, jsBind_err] at h; exact absurd h (by simp)
        | ok emb =>
          rw [hg, jsBind_ok] at h
          by_cases h0 : emb.length = 0
          · rw [if_pos h0] at h; exact absurd h (by simp)
          · rw [if_neg h0] at h
            by_cases hd : emb.length ≠ LlamaCppProvider.getDimensions cfg
            · rw [if_pos hd] at h; exact absurd h (by simp)
            · rw [if_neg hd] at h
              cases hloop : LlamaCppProvider.batchNativeLoop L fs cfg rest with
              | error e => rw [hloop, jsBind_err] at h; exact absurd h (by simp)
              | ok vs' =>
                rw [hloop, jsBind_ok] at h
                simp only [Except.ok.injEq] at h
                subst h
                intro v hv
                rcases List.mem_cons.mp hv with hv | hv
                · subst hv; exact not_not.mp hd
                · exact batchNativeLoop_validated L fs cfg rest vs' hloop v hv

/-- When the HTTP-batch validation loop accepts a vector list, every
vector has the declared dimension. -/
theorem validateVectors_ok (cfg : EmbedConfig) :
    ∀ es : List (List ℚ),
      LlamaCppProvider.validateVectors cfg es = Except.ok () →
      ∀ v ∈ es, v.length = LlamaCppProvider.getDimensions cfg
  | [], _, v, hv => by simp at hv
  | e :: rest, h, v, hv => by
    unfold LlamaCppProvider.validateVectors at h
    by_cases h0 : e.length = 0
    · rw [if_pos h0] at h; exact absurd h (by simp)
    · rw [if_neg h0] at h
      by_cases hd : e.length ≠ LlamaCppProvider.getDimensions cfg
      · rw [if_pos hd] at h; exact absurd h (by simp)
      · rw [if_neg hd] at h
        rcases List.mem_cons.mp hv with hv | hv
        · subst hv; exact not_not.mp hd
        · exact validateVectors_ok cfg rest h v hv

/-- C8 counterexample: with a backend returning a 3-dimensional vector,
the OpenAI provider succeeds with `dimensions = 3` while its
`getDimensions()` declares 1536, and against a ragged batch response it
succeeds with an inner vector whose length differs from `dimensions` —
neither mismatch is surfaced as an error. -/
theorem openai_dimension_mismatch_counterexample :
    (OpenAIProvider.embed okOpenAI errFs openaiCfg { text := some "hello" } =
      Except.ok okOpenAIDefaultResult ∧
    okOpenAIDefaultResult.dimensions = 3 ∧
    OpenAIProvider.getDimensions openaiCfg = 1536) ∧
    (OpenAIProvider.embedBatch raggedOpenAI errFs openaiCfg twoTextBatch =
      Except.ok raggedBatchOut ∧
    ¬∀ v ∈ raggedBatchOut.embeddings,
      v.length = raggedBatchOut.dimensions) := by
  refine ⟨⟨by decide, rfl, by decide⟩, ⟨by decide, by decide⟩⟩

/-- C8 (amended): every successful single `EmbedResult` satisfies
`dimensions = embedding.length` by construction, and every successful
`BatchEmbedResult` satisfies `dimensions` equal to the length of its
first inner vector (0 when empty).  The llamacpp native and HTTP paths
additionally validate every produced vector — single, and each inner
batch vector — against `getDimensions()` and fail the call on mismatch,
so their successful results satisfy the full declared-dimension
invariant.  The API-backed providers (OpenAI, Gemini, Mistral, DeepSeek)
never check any vector against `getDimensions()` and never check inner
batch vectors beyond defining `dimensions` from the first, so a mismatch
with the declared dimension, or a ragged batch, is returned silently
rather than surfaced as an error. -/
theorem result_dimension_invariant :
    (∀ (client : OpenAIClient) (fs : FileOracle) (cfg : EmbedConfig)
        (input : EmbedInput) (r : EmbedResult),
      OpenAIProvider.embed client fs cfg input = Except.ok r →
      r.dimensions = r.embedding.length) ∧
    (∀ (client : GeminiClient) (fs : FileOracle) (cfg : EmbedConfig)
        (input : EmbedInput) (r : EmbedResult),
      GeminiProvider.embed client fs cfg input = Except.ok r →
      r.dimensions = r.embedding.length) ∧
    (∀ (client : MistralClient) (fs : FileOracle) (cfg : EmbedConfig)
        (input : EmbedInput) (r : EmbedResult),
      MistralProvider.embed client fs cfg input = Except.ok r →
      r.dimensions = r.embedding.length) ∧
    (∀ (client : DeepSeekClient) (fs : FileOracle) (cfg : EmbedConfig)
        (input : EmbedInput) (r : EmbedResult),
      DeepSeekProvider.embed client fs cfg input = Except.ok r →
      r.dimensions = r.embedding.length) ∧
    (∀ (L : LlamaEnv) (cfg : EmbedConfig) (text : String) (r : EmbedResult),
      LlamaCppProvider.embedWithNative L cfg text = Except.ok r →
      r.dimensions = r.embedding.length ∧
      r.dimensions = LlamaCppProvider.getDimensions cfg) ∧
    (∀ (L : LlamaEnv) (cfg : EmbedConfig) (text : String) (r : EmbedResult),
      LlamaCppProvider.embedWithHttp L cfg text = Except.ok r →
      r.dimensions = r.embedding.length ∧
      r.dimensions = LlamaCppProvider.getDimensions cfg) ∧
    (∀ (client : OpenAIClient) (fs : FileOracle) (cfg : EmbedConfig)
        (inputs : List EmbedInput) (out : BatchEmbedResult),
      OpenAIProvider.embedBatch client fs cfg inputs = Except.ok out →
      out.dimensions = (out.embeddings.head?.getD []).length) ∧
    (∀ (client : GeminiClient) (fs : FileOracle) (cfg : EmbedConfig)
        (inputs : List EmbedInput) (out : BatchEmbedResult),
      GeminiProvider.embedBatch client fs cfg inputs = Except.ok out →
      out.dimensions = (out.embeddings.head?.getD []).length) ∧
    (∀ (client : MistralClient) (fs : FileOracle) (cfg : EmbedConfig)
        (inputs : List EmbedInput) (out : BatchEmbedResult),
      MistralProvider.embedBatch client fs cfg inputs = Except.ok out →
      out.dimensions = (out.embeddings.head?.getD []).length) ∧
    (∀ (client : DeepSeekClient) (fs : FileOracle) (cfg : EmbedConfig)
        (inputs : List EmbedInput) (out : BatchEmbedResult),
      DeepSeekProvider.embedBatch client fs cfg inputs = Except.ok out →
      out.dimensions = (out.embeddings.head?.getD []).length) ∧
    (∀ (L : LlamaEnv) (fs : FileOracle) (cfg : EmbedConfig)
        (inputs : List EmbedInput) (out : BatchEmbedResult),
      LlamaCppProvider.embedBatchWithNative L fs cfg inputs = Except.ok out →
      out.dimensions = LlamaCppProvider.getDimensions cfg ∧
      ∀ v ∈ out.embeddings, v.length = LlamaCppProvider.getDimensions cfg) ∧
    (∀ (L : LlamaEnv) (fs : FileOracle) (cfg : EmbedConfig)
        (inputs : List EmbedInput) (out : BatchEmbedResult),
      LlamaCppProvider.embedBatchWithHttp L fs cfg inputs = Except.ok out →
      out.dimensions = LlamaCppProvider.getDimensions cfg ∧
      ∀ v ∈ out.embeddings, v.length = LlamaCppProvider.getDimensions cfg) := by
  refine ⟨?_, ?_, ?_, ?_, ?_, ?_, ?_, ?_, ?_, ?_, ?_, ?_⟩
  · intro client fs cfg input r h
    unfold OpenAIProvider.embed at h
    cases hr : readInput fs input with
    | error e => rw [hr, jsBind_err] at h; exact absurd h (by simp)
    | ok t =>
      rw [hr, jsBind_ok] at h
      cases hc : client.createSingle (OpenAIProvider.getModel cfg) t with
      | error e => rw [hc, jsBind_err] at h; exact absurd h (by simp)
      | ok resp =>
        rw [hc, jsBind_ok] at h
        cases hd : resp.data.head? with
        | none => rw [hd] at h; exact absurd h (by simp)
        | some item =>
          rw [hd] at h
          simp only [Except.ok.injEq] at h
          subst h
          rfl
  · intro client fs cfg input r h
    unfold GeminiProvider.embed at h
    cases hr : readInput fs input with
    | error e => rw [hr, jsBind_err] at h; exact absurd h (by simp)
    | ok t =>
      rw [hr, jsBind_ok] at h
      cases hc : client.embedContent (GeminiProvider.getModel cfg) t with
      | error e => rw [hc, jsBind_err] at h; exact absurd h (by simp)
      | ok emb =>
        rw [hc, jsBind_ok] at h
        simp only [Except.ok.injEq] at h
        subst h
        rfl
  · intro client fs cfg input r h
    unfold MistralProvider.embed at h
    cases hr : readInput fs input with
    | error e => rw [hr, jsBind_err] at h; exact absurd h (by simp)
    | ok t =>
      rw [hr, jsBind_ok] at h
      cases hc : client.create (MistralProvider.getModel cfg) [t] with
      | error e => rw [hc, jsBind_err] at h; exact absurd h (by simp)
      | ok resp =>
        rw [hc, jsBind_ok] at h
        cases hd : resp.data.head? with
        | none => rw [hd] at h; exact absurd h (by simp)
        | some item =>
          rw [hd] at h
          simp only [Except.ok.injEq] at h
          subst h
          rfl
  · intro client fs cfg input r h
    unfold DeepSeekProvider.embed at h
    cases hr : readInput fs input with
    | error e => rw [hr, jsBind_err] at h; exact absurd h (by simp)
    | ok t =>
      rw [hr, jsBind_ok] at h
      cases hc : client.createSingle (DeepSeekProvider.getModel cfg) t with
      | error e => rw [hc, jsBind_err] at h; exact absurd h (by simp)
      | ok resp =>
        rw [hc, jsBind_ok] at h
        cases hd : resp.data.head? with
        | none => rw [hd] at h; exact absurd h (by simp)
        | some item =>
          rw [hd] at h
          simp only [Except.ok.injEq] at h
          subst h
          rfl
  · intro L cfg text r h
    unfold LlamaCppProvider.embedWithNative at h
    cases hg : L.getEmbedding text with
    | error e => rw [hg, jsBind_err] at h; exact absurd h (by simp)
    | ok emb =>
      rw [hg, jsBind_ok] at h
      by_cases h0 : emb.length = 0
      · rw [if_pos h0] at h; exact absurd h (by simp)
      · rw [if_neg h0] at h
        by_cases hd : emb.length ≠ LlamaCppProvider.getDimensions cfg
        · rw [if_pos hd] at h; exact absurd h (by simp)
        · rw [if_neg hd] at h
          simp only [Except.ok.injEq] at h
          subst h
          exact ⟨rfl, not_not.mp hd⟩
  · intro L cfg text r h
    unfold LlamaCppProvider.embedWithHttp at h
    split at h
    · exact absurd h (by simp)
    · cases hp : L.post (cfg.httpEndpoint.getD "" ++ "/embeddings")
          { model := LlamaCppProvider.getModel cfg
            input := LlamaHttpInput.one text, normalize := true } with
      | error e => rw [hp, jsBind_err] at h; exact absurd h (by simp)
      | ok resp =>
        rw [hp, jsBind_ok] at h
        split at h
        · exact absurd h (by simp)
        · split at h
          · exact absurd h (by simp)
          · split at h
            · exact absurd h (by simp)
            · split at h
              · exact absurd h (by simp)
              · rename_i hd
                simp only [Except.ok.injEq] at h
                subst h
                exact ⟨rfl, not_not.mp hd⟩
  · intro client fs cfg inputs out h
    unfold OpenAIProvider.embedBatch at h
    cases ht : inputs.mapM (readInput fs) with
    | error e => rw [ht, jsBind_err] at h; exact absurd h (by simp)
    | ok texts =>
      rw [ht, jsBind_ok] at h
      cases hc : client.createBatch (OpenAIProvider.getModel cfg) texts with
      | error e => rw [hc, jsBind_err] at h; exact absurd h (by simp)
      | ok resp =>
        rw [hc, jsBind_ok] at h
        simp only [Except.ok.injEq] at h
        subst h
        rfl
  · intro client fs cfg inputs out h
    unfold GeminiProvider.embedBatch at h
    cases ht : inputs.mapM (readInput fs) with
    | error e => rw [ht, jsBind_err] at h; exact absurd h (by simp)
    | ok texts =>
      rw [ht, jsBind_ok] at h
      cases hr : texts.mapM (client.embedContent (GeminiProvider.getModel cfg)) with
      | error e => rw [hr, jsBind_err] at h; exact absurd h (by simp)
      | ok results =>
        rw [hr, jsBind_ok] at h
        simp only [Except.ok.injEq] at h
        subst h
        rfl
  · intro client fs cfg inputs out h
    unfold MistralProvider.embedBatch at h
    cases ht : inputs.mapM (readInput fs) with
    | error e => rw [ht, jsBind_err] at h; exact absurd h (by simp)
    | ok texts =>
      rw [ht, jsBind_ok] at h
      cases hc : client.create (MistralProvider.getModel cfg) texts with
      | error e => rw [hc, jsBind_err] at h; exact absurd h (by simp)
      | ok resp =>
        rw [hc, jsBind_ok] at h
        cases hm : resp.data.mapM MistralProvider.itemEmbedding with
        | error e => rw [hm, jsBind_err] at h; exact absurd h (by simp)
        | ok embeddings =>
          rw [hm, jsBind_ok] at h
          simp only [Except.ok.injEq] at h
          subst h
          rfl
  · intro client fs cfg inputs out h
    unfold DeepSeekProvider.embedBatch at h
    cases ht : inputs.mapM (readInput fs) with
    | error e => rw [ht, jsBind_err] at h; exact absurd h (by simp)
    | ok texts =>
      rw [ht, jsBind_ok] at h
      cases hc : client.createBatch (DeepSeekProvider.getModel cfg) texts with
      | error e => rw [hc, jsBind_err] at h; exact absurd h (by simp)
      | ok resp =>
        rw [hc, jsBind_ok] at h
        simp only [Except.ok.injEq] at h
        subst h
        rfl
  · intro L fs cfg inputs out h
    unfold LlamaCppProvider.embedBatchWithNative at h
    cases hloop : LlamaCppProvider.batchNativeLoop L fs cfg inputs with
    | error e => rw [hloop, jsBind_err] at h; exact absurd h (by simp)
    | ok vs =>
      rw [hloop, jsBind_ok] at h
      by_cases h0 : vs.length = 0
      · rw [if_pos h0] at h; exact absurd h (by simp)
      · rw [if_neg h0] at h
        simp only [Except.ok.injEq] at h
        subst h
        have hall := batchNativeLoop_validated L fs cfg inputs vs hloop
        constructor
        · cases vs with
          | nil => simp at h0
          | cons v0 vtail =>
            simpa using hall v0 (List.mem_cons_self v0 vtail)
        · exact hall
  · intro L fs cfg inputs out h
    unfold LlamaCppProvider.embedBatchWithHttp at h
    split at h
    · exact absurd h (by simp)
    · cases hct : LlamaCppProvider.collectTexts fs inputs with
      | error e => rw [hct, jsBind_err] at h; exact absurd h (by simp)
      | ok texts =>
        rw [hct, jsBind_ok] at h
        by_cases ht0 : texts.length = 0
        · rw [if_pos ht0] at h; exact absurd h (by simp)
        · rw [if_neg ht0] at h
          cases hp : L.post "/embeddings"
              { model := LlamaCppProvider.getModel cfg
                input := LlamaHttpInput.many texts, normalize := true } with
          | error e => rw [hp, jsBind_err] at h; exact absurd h (by simp)
          | ok resp =>
            rw [hp, jsBind_ok] at h
            split at h
            · exact absurd h (by simp)
            · rename_i embs heq
              by_cases he0 : embs.length = 0
              · rw [if_pos he0] at h; exact absurd h (by simp)
              · rw [if_neg he0] at h
                cases hvv : LlamaCppProvider.validateVectors cfg embs with
                | error e => rw [hvv, jsBind_err] at h; exact absurd h (by simp)
                | ok u =>
                  cases u
                  rw [hvv, jsBind_ok] at h
                  simp only [Except.ok.injEq] at h
                  subst h
                  have hall := validateVectors_ok cfg embs hvv
                  constructor
                  · cases embs with
                    | nil => simp at he0
                    | cons v0 vtail =>
                      simpa using hall v0 (List.mem_cons_self v0 vtail)
                  · exact hall

set_option maxRecDepth 8192 in
/-- Witness for the amended C8 at concrete successful runs: an OpenAI
single embed, an OpenAI batch, a llamacpp native single embed and a
llamacpp native batch. -/
theorem result_dimension_invariant_witness :
    (OpenAIProvider.embed okOpenAI errFs openaiCfg { text := some "hi" } =
      Except.ok okOpenAIDefaultResult ∧
    okOpenAIDefaultResult.dimensions = okOpenAIDefaultResult.embedding.length) ∧
    (OpenAIProvider.embedBatch okOpenAI errFs openaiCfg twoTextBatch =
      Except.ok okOpenAIBatchOut ∧
    okOpenAIBatchOut.dimensions =
      (okOpenAIBatchOut.embeddings.head?.getD []).length) ∧
    (LlamaCppProvider.embedWithNative nativeLlama llamaCfg "hi" =
      Except.ok llamaNativeResult ∧
    llamaNativeResult.dimensions = llamaNativeResult.embedding.length ∧
    llamaNativeResult.dimensions = LlamaCppProvider.getDimensions llamaCfg) ∧
    (LlamaCppProvider.embedBatchWithNative nativeLlama errFs llamaCfg
      oneValidBatch = Except.ok c7Batch ∧
    c7Batch.dimensions = LlamaCppProvider.getDimensions llamaCfg ∧
    ∀ v ∈ c7Batch.embeddings,
      v.length = LlamaCppProvider.getDimensions llamaCfg) :=
  ⟨⟨by decide, result_dimension_invariant.1 okOpenAI errFs openaiCfg
      { text := some "hi" } okOpenAIDefaultResult (by decide)⟩,
   ⟨by decide, result_dimension_invariant.2.2.2.2.2.2.1 okOpenAI errFs
      openaiCfg twoTextBatch okOpenAIBatchOut (by decide)⟩,
   ⟨by decide, result_dimension_invariant.2.2.2.2.1 nativeLlama llamaCfg "hi"
      llamaNativeResult (by decide)⟩,
   ⟨by decide, result_dimension_invariant.2.2.2.2.2.2.2.2.2.2.1 nativeLlama
      errFs llamaCfg oneValidBatch c7Batch (by decide)⟩⟩

end Vecbox
